import Mathlib

/-!
# CPF / CNPJ validation (`util/validate.go`)

A shallow embedding of the Go package `util`:

* a Go `string` is its sequence of bytes, each byte a natural number below 256;
* byte arithmetic (`val[i] - '0'`) wraps modulo `2^8`;
* Go `int` values are natural numbers: every `int` computed by the package is
  a sum of products of non-negative numbers bounded by `255 * 65 * 10`, far
  below `2^63`, so no wrap-around and no negative value can occur;
* indexing a string or a slice outside its bounds is a run-time panic, modelled
  by the outer `Option` (`none` is the panic);
* a Go `error` is `Option GoError`, `none` being `nil`.
-/

namespace Util

/-! ## Data model -/

/-- A Go string: the list of its bytes. -/
abbrev GoString := List Nat

/-- Every element is a byte. -/
def IsBytes (val : GoString) : Prop := ∀ b ∈ val, b < 256

instance (val : GoString) : Decidable (IsBytes val) := by
  unfold IsBytes; infer_instance

/-- Subtraction of two `byte` values, wrapping modulo `2^8` as in Go. -/
def byteSub (a b : Nat) : Nat := (a + 256 - b) % 256

/-- The byte `'0'`. -/
def char0 : Nat := 48

/-- The byte `'9'`. -/
def char9 : Nat := 57

/-- The bytes of a string literal of the source (UTF-8 encoding). -/
def bytes (s : String) : GoString :=
  s.toList.flatMap fun c => (String.utf8EncodeChar c).map UInt8.toNat

/-- An operand of a formatting call. -/
inductive Arg where
  | int (n : Nat)
  | str (s : GoString)
  deriving DecidableEq, Repr

/-- The value built by `fmt.Errorf`: the format string and its operands. -/
structure GoError where
  format : String
  args : List Arg
  deriving DecidableEq, Repr

/-- The call `fmt.Errorf(format, args...)`. -/
def Errorf (format : String) (args : List Arg) : GoError := ⟨format, args⟩

/-- Decimal rendering of an `int` operand under the verb `%d`. -/
def decimal (n : Nat) : GoString := (Nat.toDigits 10 n).map Char.toNat

/-- Rendering of a format string with the verbs `%d` and `%s`, the only two
the package uses; any other character is copied. -/
def Sprintf : List Char → List Arg → GoString
  | [], _ => []
  | c :: fs, args =>
    if c = '%' then
      match fs, args with
      | 'd' :: fs, Arg.int n :: args => decimal n ++ Sprintf fs args
      | 's' :: fs, Arg.str s :: args => s ++ Sprintf fs args
      | fs, args => (String.utf8EncodeChar c).map UInt8.toNat ++ Sprintf fs args
    else (String.utf8EncodeChar c).map UInt8.toNat ++ Sprintf fs args

/-- The method `Error()` of the value built by `fmt.Errorf`: its message. -/
def GoError.message (e : GoError) : GoString := Sprintf e.format.toList e.args

/-- The indices visited by `for i := lo; i < hi; i++`. -/
def forRange (lo hi : Nat) : List Nat := (List.range (hi - lo)).map (lo + ·)

/-! ## `ValidateCpf` -/

/-- The scan `for i ... { if val[i-1] != val[i] { hasDistinctDigits = true; break } }`
over the given indices; `none` when an index is out of range. -/
def distinctScan (val : GoString) : List Nat → Option Bool
  | [] => some false
  | i :: is =>
    match val[i - 1]?, val[i]? with
    | some a, some b => if a != b then some true else distinctScan val is
    | _, _ => none

/-- The loop `for i ... { digit := int(val[i] - '0'); sum += (k - i) * digit }`
of `ValidateCpf` (`k` is 10 in the first loop and 11 in the second). -/
def cpfSum (val : GoString) (k : Nat) : List Nat → Nat → Option Nat
  | [], sum => some sum
  | i :: is, sum =>
    match val[i]? with
    | some b => cpfSum val k is (sum + (k - i) * byteSub b char0)
    | none => none

/-- The function `ValidateCpf`. -/
def ValidateCpf (val : GoString) : Option (Option GoError) := do
  let hasDistinctDigits ← distinctScan val (forRange 1 11)
  if !hasDistinctDigits then
    pure (some (Errorf "Invalid CPF with no distinct digit: %s" [Arg.str val]))
  else
    let sum ← cpfSum val 10 (forRange 0 9) 0
    let wantDigit10 := sum * 10 % 11 % 10
    let gotDigit10 := byteSub (← val[9]?) char0
    if wantDigit10 != gotDigit10 then
      pure (some (Errorf "expected digit at position 10 to be %d, but got %d"
        [Arg.int wantDigit10, Arg.int gotDigit10]))
    else
      let sum ← cpfSum val 11 (forRange 0 10) 0
      let wantDigit11 := sum * 10 % 11 % 10
      let gotDigit11 := byteSub (← val[10]?) char0
      if wantDigit11 != gotDigit11 then
        pure (some (Errorf "expected digit at position 11 to be %d, but got %d"
          [Arg.int wantDigit11, Arg.int gotDigit11]))
      else
        pure none

/-! ## `ValidateCnpj` -/

/-- The slice `multipliers1`. -/
def multipliers1 : List Nat := [5, 4, 3, 2, 9, 8, 7, 6, 5, 4, 3, 2]

/-- The slice `multipliers2`. -/
def multipliers2 : List Nat := [6, 5, 4, 3, 2, 9, 8, 7, 6, 5, 4, 3, 2]

/-- The loop `for i ... { digit := int(val[i] - '0'); sum += digit * multipliers[i] }`
of `ValidateCnpj`. -/
def cnpjSum (val : GoString) (multipliers : List Nat) : List Nat → Nat → Option Nat
  | [], sum => some sum
  | i :: is, sum =>
    match val[i]?, multipliers[i]? with
    | some b, some m => cnpjSum val multipliers is (sum + byteSub b char0 * m)
    | _, _ => none

/-- The assignment `want := sum % 11; if want < 2 { want = 0 } else { want = 11 - want }`. -/
def cnpjWant (sum : Nat) : Nat :=
  let want := sum % 11
  if want < 2 then 0 else 11 - want

/-- The function `ValidateCnpj`. -/
def ValidateCnpj (val : GoString) : Option (Option GoError) := do
  let hasDistinctDigits ← distinctScan val (forRange 1 14)
  if !hasDistinctDigits then
    pure (some (Errorf "Invalid CNPJ with no distinct digit: %s" [Arg.str val]))
  else
    let sum ← cnpjSum val multipliers1 (forRange 0 12) 0
    let wantDigit13 := cnpjWant sum
    let gotDigit13 := byteSub (← val[12]?) char0
    if wantDigit13 != gotDigit13 then
      pure (some (Errorf "expected digit at position 13 to be %d, but got %d"
        [Arg.int wantDigit13, Arg.int gotDigit13]))
    else
      let sum ← cnpjSum val multipliers2 (forRange 0 13) 0
      let wantDigit14 := cnpjWant sum
      let gotDigit14 := byteSub (← val[13]?) char0
      if wantDigit14 != gotDigit14 then
        pure (some (Errorf "expected digit at position 14 to be %d, but got %d"
          [Arg.int wantDigit14, Arg.int gotDigit14]))
      else
        pure none

/-! ## `ValidateCpfOrCnpj` -/

/-- The function `ValidateCpfOrCnpj`. -/
def ValidateCpfOrCnpj (val : GoString) : Option (Option GoError) :=
  if val.length = 11 then ValidateCpf val
  else if val.length = 14 then ValidateCnpj val
  else some (some (Errorf "invalid CPF or CNPJ with length %d: %s"
    [Arg.int val.length, Arg.str val]))

/-! ## The two functions without their repeated-digit check -/

/-- The part of `ValidateCpf` that follows the repeated-digit check (from `sum := 0`
to the end of the function): `ValidateCpf` with that check removed. -/
def ValidateCpfChecks (val : GoString) : Option (Option GoError) := do
  let sum ← cpfSum val 10 (forRange 0 9) 0
  let wantDigit10 := sum * 10 % 11 % 10
  let gotDigit10 := byteSub (← val[9]?) char0
  if wantDigit10 != gotDigit10 then
    pure (some (Errorf "expected digit at position 10 to be %d, but got %d"
      [Arg.int wantDigit10, Arg.int gotDigit10]))
  else
    let sum ← cpfSum val 11 (forRange 0 10) 0
    let wantDigit11 := sum * 10 % 11 % 10
    let gotDigit11 := byteSub (← val[10]?) char0
    if wantDigit11 != gotDigit11 then
      pure (some (Errorf "expected digit at position 11 to be %d, but got %d"
        [Arg.int wantDigit11, Arg.int gotDigit11]))
    else
      pure none

/-- The part of `ValidateCnpj` that follows the repeated-digit check (from the
declaration of `multipliers1` to the end of the function): `ValidateCnpj` with that
check removed. -/
def ValidateCnpjChecks (val : GoString) : Option (Option GoError) := do
  let sum ← cnpjSum val multipliers1 (forRange 0 12) 0
  let wantDigit13 := cnpjWant sum
  let gotDigit13 := byteSub (← val[12]?) char0
  if wantDigit13 != gotDigit13 then
    pure (some (Errorf "expected digit at position 13 to be %d, but got %d"
      [Arg.int wantDigit13, Arg.int gotDigit13]))
  else
    let sum ← cnpjSum val multipliers2 (forRange 0 13) 0
    let wantDigit14 := cnpjWant sum
    let gotDigit14 := byteSub (← val[13]?) char0
    if wantDigit14 != gotDigit14 then
      pure (some (Errorf "expected digit at position 14 to be %d, but got %d"
        [Arg.int wantDigit14, Arg.int gotDigit14]))
    else
      pure none

/-! ## Specification-side vocabulary -/

/-- The string consists of ASCII decimal digits. -/
def IsDigits (v : GoString) : Prop := ∀ b ∈ v, char0 ≤ b ∧ b ≤ char9

instance (v : GoString) : Decidable (IsDigits v) := by
  unfold IsDigits; infer_instance

/-- The digit value `d[i] = v[i] - '0'` of the claims. -/
def digitAt (v : GoString) (i : Nat) : Nat := v.getD i 0 - char0

/-- All bytes of the string are equal. -/
def AllEqual (v : GoString) : Prop := ∀ x ∈ v, ∀ y ∈ v, x = y

instance (v : GoString) : Decidable (AllEqual v) := by
  unfold AllEqual; infer_instance

/-- The value `int(val[i] - '0')` the code computes at an index in range. -/
def byteDigit (v : GoString) (i : Nat) : Nat := byteSub (v.getD i 0) char0

/-- The value of `wantDigit10` in `ValidateCpf`. -/
def cpfWant10 (v : GoString) : Nat :=
  (∑ i in Finset.range 9, (10 - i) * byteDigit v i) * 10 % 11 % 10

/-- The value of `wantDigit11` in `ValidateCpf`. -/
def cpfWant11 (v : GoString) : Nat :=
  (∑ i in Finset.range 10, (11 - i) * byteDigit v i) * 10 % 11 % 10

/-- The value of `wantDigit13` in `ValidateCnpj`. -/
def cnpjWant13 (v : GoString) : Nat :=
  cnpjWant (∑ i in Finset.range 12, byteDigit v i * multipliers1.getD i 0)

/-- The value of `wantDigit14` in `ValidateCnpj`. -/
def cnpjWant14 (v : GoString) : Nat :=
  cnpjWant (∑ i in Finset.range 13, byteDigit v i * multipliers2.getD i 0)

/-! ## The specification's formulas -/

/-- The weighted sum `Σ (10 - i) * digit[i]` for `i` in `0..8` of the specification. -/
def specCpfSum10 (v : GoString) : Nat := ∑ i in Finset.range 9, (10 - i) * digitAt v i

/-- The expected 10th digit of a CPF in the specification's words:
`(sum * 10) mod 11 mod 10`. -/
def specCpfDigit10 (v : GoString) : Nat := specCpfSum10 v * 10 % 11 % 10

/-- The weighted sum `Σ (11 - i) * digit[i]` for `i` in `0..9` of the specification. -/
def specCpfSum11 (v : GoString) : Nat := ∑ i in Finset.range 10, (11 - i) * digitAt v i

/-- The expected 11th digit of a CPF in the specification's words:
`(sum * 10) mod 11 mod 10`. -/
def specCpfDigit11 (v : GoString) : Nat := specCpfSum11 v * 10 % 11 % 10

/-- The weight vector `W1` of the specification. -/
def W1 : List Nat := [5, 4, 3, 2, 9, 8, 7, 6, 5, 4, 3, 2]

/-- The weight vector `W2` of the specification. -/
def W2 : List Nat := [6, 5, 4, 3, 2, 9, 8, 7, 6, 5, 4, 3, 2]

/-- The remainder rule of the specification: `0 if r < 2 else 11 - r` with `r = s mod 11`. -/
def specCheck (s : Nat) : Nat := if s % 11 < 2 then 0 else 11 - s % 11

/-- The weighted sum `Σ W1[i] * digit[i]` over positions `0..11` of the specification. -/
def specCnpjSum13 (v : GoString) : Nat := ∑ i in Finset.range 12, W1.getD i 0 * digitAt v i

/-- The expected 13th digit of a CNPJ in the specification's words. -/
def specCnpjDigit13 (v : GoString) : Nat := specCheck (specCnpjSum13 v)

/-- The weighted sum `Σ W2[i] * digit[i]` over positions `0..12` of the specification. -/
def specCnpjSum14 (v : GoString) : Nat := ∑ i in Finset.range 13, W2.getD i 0 * digitAt v i

/-- The expected 14th digit of a CNPJ in the specification's words. -/
def specCnpjDigit14 (v : GoString) : Nat := specCheck (specCnpjSum14 v)

/-! ## Evaluation lemmas -/

theorem length_eleven {v : GoString} (h : v.length = 11) :
    ∃ a0 a1 a2 a3 a4 a5 a6 a7 a8 a9 a10, v = [a0, a1, a2, a3, a4, a5, a6, a7, a8, a9, a10] := by
  match v, h with
  | [a0, a1, a2, a3, a4, a5, a6, a7, a8, a9, a10], _ => exact ⟨_, _, _, _, _, _, _, _, _, _, _, rfl⟩

theorem forRange_1_11 : forRange 1 11 = [1,2,3,4,5,6,7,8,9,10] := by decide

theorem allEqual_eleven (a0 a1 a2 a3 a4 a5 a6 a7 a8 a9 a10 : Nat) :
    AllEqual [a0, a1, a2, a3, a4, a5, a6, a7, a8, a9, a10] ↔
      (a0 = a1 ∧ a1 = a2 ∧ a2 = a3 ∧ a3 = a4 ∧ a4 = a5 ∧ a5 = a6 ∧ a6 = a7 ∧ a7 = a8 ∧
        a8 = a9 ∧ a9 = a10) := by
  constructor
  · intro h
    simp only [AllEqual, List.mem_cons, List.mem_singleton, List.not_mem_nil, or_false] at h
    refine ⟨h _ ?_ _ ?_, h _ ?_ _ ?_, h _ ?_ _ ?_, h _ ?_ _ ?_, h _ ?_ _ ?_, h _ ?_ _ ?_, h _ ?_ _ ?_, h _ ?_ _ ?_, h _ ?_ _ ?_, h _ ?_ _ ?_⟩ <;> simp
  · rintro ⟨rfl, rfl, rfl, rfl, rfl, rfl, rfl, rfl, rfl, rfl⟩
    intro x hx y hy
    simp only [List.mem_cons, List.mem_singleton, List.not_mem_nil, or_false, or_self] at hx hy
    rw [hx, hy]

/-- The adjacent-pair scan over in-range indices finds a differing pair exactly
when one exists among the pairs it visits. -/
theorem distinctScan_eq (val : GoString) : ∀ is : List Nat, (∀ i ∈ is, i < val.length) →
    distinctScan val is = some (decide (∃ i ∈ is, val[i - 1]? ≠ val[i]?))
  | [], _ => by simp [distinctScan]
  | i :: is, h => by
    have hi : i < val.length := h i (by simp)
    have hi1 : i - 1 < val.length := by omega
    have ih := distinctScan_eq val is (fun j hj => h j (by simp [hj]))
    have e : (val[i - 1]? = val[i]?) ↔ val[i - 1] = val[i] := by
      rw [List.getElem?_eq_getElem hi, List.getElem?_eq_getElem hi1]; simp
    simp only [distinctScan, List.getElem?_eq_getElem hi, List.getElem?_eq_getElem hi1, ih]
    by_cases hne : val[i - 1] = val[i] <;> simp [hne, e]

theorem distinctScan_eleven (v : GoString) (h : v.length = 11) :
    distinctScan v (forRange 1 11) = some (!decide (AllEqual v)) := by
  obtain ⟨a0, a1, a2, a3, a4, a5, a6, a7, a8, a9, a10, rfl⟩ := length_eleven h
  rw [distinctScan_eq _ _ (by simp [forRange_1_11])]
  congr 1
  rw [← decide_not, decide_eq_decide]
  simp only [allEqual_eleven, forRange_1_11]
  simp
  omega

theorem forRange_zero_succ (n : Nat) : forRange 0 (n + 1) = forRange 0 n ++ [n] := by
  simp [forRange, List.range_succ]

theorem byteDigit_of_lt (v : GoString) (i : Nat) (h : i < v.length) :
    byteDigit v i = byteSub v[i] char0 := by
  simp [byteDigit, List.getD_eq_getElem?_getD, List.getElem?_eq_getElem h]

theorem cpfSum_append (val : GoString) (k : Nat) : ∀ (xs ys : List Nat) (acc : Nat),
    cpfSum val k (xs ++ ys) acc = (cpfSum val k xs acc).bind fun s => cpfSum val k ys s
  | [], _, _ => rfl
  | i :: xs, ys, acc => by
    simp only [List.cons_append, cpfSum]
    cases val[i]? with
    | none => rfl
    | some b => exact cpfSum_append val k xs ys _

/-- The weighted-sum loop of `ValidateCpf` over `0 .. n-1`, all indices in range. -/
theorem cpfSum_forRange (val : GoString) (k n : Nat) (h : n ≤ val.length) :
    cpfSum val k (forRange 0 n) 0 =
      some (∑ i in Finset.range n, (k - i) * byteDigit val i) := by
  induction n with
  | zero => rfl
  | succ n ih =>
    have hn : n < val.length := by omega
    rw [forRange_zero_succ, cpfSum_append, ih (by omega), Finset.sum_range_succ,
      byteDigit_of_lt val n hn]
    simp only [Option.some_bind, cpfSum, List.getElem?_eq_getElem hn]

theorem cpfSum_nine (v : GoString) (h : v.length = 11) :
    cpfSum v 10 (forRange 0 9) 0 = some (∑ i in Finset.range 9, (10 - i) * byteDigit v i) :=
  cpfSum_forRange v 10 9 (by omega)

theorem cpfSum_ten (v : GoString) (h : v.length = 11) :
    cpfSum v 11 (forRange 0 10) 0 = some (∑ i in Finset.range 10, (11 - i) * byteDigit v i) :=
  cpfSum_forRange v 11 10 (by omega)

/-- The control flow of `ValidateCpf` once the scan, the two sums and the two
check-digit bytes are known. -/
theorem cpf_flow (v : GoString) (scan : Bool) (s1 s2 g10 g11 : Nat) :
    (do
      let hasDistinctDigits ← some scan
      if !hasDistinctDigits then
        pure (some (Errorf "Invalid CPF with no distinct digit: %s" [Arg.str v]))
      else
        let sum ← some s1
        let wantDigit10 := sum * 10 % 11 % 10
        let gotDigit10 := (← some g10)
        if wantDigit10 != gotDigit10 then
          pure (some (Errorf "expected digit at position 10 to be %d, but got %d"
            [Arg.int wantDigit10, Arg.int gotDigit10]))
        else
          let sum ← some s2
          let wantDigit11 := sum * 10 % 11 % 10
          let gotDigit11 := (← some g11)
          if wantDigit11 != gotDigit11 then
            pure (some (Errorf "expected digit at position 11 to be %d, but got %d"
              [Arg.int wantDigit11, Arg.int gotDigit11]))
          else
            pure none : Option (Option GoError)) =
      if scan = false then
        some (some (Errorf "Invalid CPF with no distinct digit: %s" [Arg.str v]))
      else if s1 * 10 % 11 % 10 ≠ g10 then
        some (some (Errorf "expected digit at position 10 to be %d, but got %d"
          [Arg.int (s1 * 10 % 11 % 10), Arg.int g10]))
      else if s2 * 10 % 11 % 10 ≠ g11 then
        some (some (Errorf "expected digit at position 11 to be %d, but got %d"
          [Arg.int (s2 * 10 % 11 % 10), Arg.int g11]))
      else some none := by
  cases scan
  · rfl
  · by_cases h1 : s1 * 10 % 11 % 10 = g10
    · by_cases h2 : s2 * 10 % 11 % 10 = g11
      · simp [h1, h2]
      · simp [h1, h2]
    · simp [h1]

/-- Closed form of `ValidateCpf` on a string of length 11: the four exits in order. -/
theorem ValidateCpf_eq (v : GoString) (h : v.length = 11) :
    ValidateCpf v =
      if AllEqual v then
        some (some (Errorf "Invalid CPF with no distinct digit: %s" [Arg.str v]))
      else if cpfWant10 v ≠ byteDigit v 9 then
        some (some (Errorf "expected digit at position 10 to be %d, but got %d"
          [Arg.int (cpfWant10 v), Arg.int (byteDigit v 9)]))
      else if cpfWant11 v ≠ byteDigit v 10 then
        some (some (Errorf "expected digit at position 11 to be %d, but got %d"
          [Arg.int (cpfWant11 v), Arg.int (byteDigit v 10)]))
      else some none := by
  have h9 : v[9]? = some (v.getD 9 0) := by
    obtain ⟨a0, a1, a2, a3, a4, a5, a6, a7, a8, a9, a10, rfl⟩ := length_eleven h
    rfl
  have h10 : v[10]? = some (v.getD 10 0) := by
    obtain ⟨a0, a1, a2, a3, a4, a5, a6, a7, a8, a9, a10, rfl⟩ := length_eleven h
    rfl
  unfold ValidateCpf
  rw [distinctScan_eleven v h, cpfSum_nine v h, cpfSum_ten v h, h9, h10]
  refine (cpf_flow v _ _ _ _ _).trans ?_
  by_cases hall : AllEqual v
  · rw [if_pos (by simpa using hall), if_pos hall]
  · rw [if_neg (by simpa using hall), if_neg hall]
    rfl

theorem length_fourteen {v : GoString} (h : v.length = 14) :
    ∃ a0 a1 a2 a3 a4 a5 a6 a7 a8 a9 a10 a11 a12 a13,
      v = [a0, a1, a2, a3, a4, a5, a6, a7, a8, a9, a10, a11, a12, a13] := by
  match v, h with
  | [a0, a1, a2, a3, a4, a5, a6, a7, a8, a9, a10, a11, a12, a13], _ =>
    exact ⟨_, _, _, _, _, _, _, _, _, _, _, _, _, _, rfl⟩

theorem forRange_1_14 : forRange 1 14 = [1,2,3,4,5,6,7,8,9,10,11,12,13] := by decide

theorem allEqual_fourteen (a0 a1 a2 a3 a4 a5 a6 a7 a8 a9 a10 a11 a12 a13 : Nat) :
    AllEqual [a0, a1, a2, a3, a4, a5, a6, a7, a8, a9, a10, a11, a12, a13] ↔
      (a0 = a1 ∧ a1 = a2 ∧ a2 = a3 ∧ a3 = a4 ∧ a4 = a5 ∧ a5 = a6 ∧ a6 = a7 ∧ a7 = a8 ∧
        a8 = a9 ∧ a9 = a10 ∧ a10 = a11 ∧ a11 = a12 ∧ a12 = a13) := by
  constructor
  · intro h
    simp only [AllEqual, List.mem_cons, List.mem_singleton, List.not_mem_nil, or_false] at h
    refine ⟨h _ ?_ _ ?_, h _ ?_ _ ?_, h _ ?_ _ ?_, h _ ?_ _ ?_, h _ ?_ _ ?_, h _ ?_ _ ?_,
      h _ ?_ _ ?_, h _ ?_ _ ?_, h _ ?_ _ ?_, h _ ?_ _ ?_, h _ ?_ _ ?_, h _ ?_ _ ?_,
      h _ ?_ _ ?_⟩ <;> simp
  · rintro ⟨rfl, rfl, rfl, rfl, rfl, rfl, rfl, rfl, rfl, rfl, rfl, rfl, rfl⟩
    intro x hx y hy
    simp only [List.mem_cons, List.mem_singleton, List.not_mem_nil, or_false, or_self] at hx hy
    rw [hx, hy]

theorem distinctScan_fourteen (v : GoString) (h : v.length = 14) :
    distinctScan v (forRange 1 14) = some (!decide (AllEqual v)) := by
  obtain ⟨a0, a1, a2, a3, a4, a5, a6, a7, a8, a9, a10, a11, a12, a13, rfl⟩ := length_fourteen h
  rw [distinctScan_eq _ _ (by simp [forRange_1_14])]
  congr 1
  rw [← decide_not, decide_eq_decide]
  simp only [allEqual_fourteen, forRange_1_14]
  simp
  omega

theorem cnpjSum_append (val : GoString) (ms : List Nat) : ∀ (xs ys : List Nat) (acc : Nat),
    cnpjSum val ms (xs ++ ys) acc = (cnpjSum val ms xs acc).bind fun s => cnpjSum val ms ys s
  | [], _, _ => rfl
  | i :: xs, ys, acc => by
    simp only [List.cons_append, cnpjSum]
    cases val[i]? with
    | none => rfl
    | some b =>
      cases ms[i]? with
      | none => rfl
      | some m => exact cnpjSum_append val ms xs ys _

/-- The weighted-sum loop of `ValidateCnpj` over `0 .. n-1`, all indices in range. -/
theorem cnpjSum_forRange (val : GoString) (ms : List Nat) (n : Nat) (h : n ≤ val.length)
    (hm : n ≤ ms.length) :
    cnpjSum val ms (forRange 0 n) 0 =
      some (∑ i in Finset.range n, byteDigit val i * ms.getD i 0) := by
  induction n with
  | zero => rfl
  | succ n ih =>
    have hn : n < val.length := by omega
    have hn2 : n < ms.length := by omega
    have e : ms.getD n 0 = ms[n] := by
      simp [List.getD_eq_getElem?_getD, List.getElem?_eq_getElem hn2]
    rw [forRange_zero_succ, cnpjSum_append, ih (by omega) (by omega), Finset.sum_range_succ,
      byteDigit_of_lt val n hn, e]
    simp only [Option.some_bind, cnpjSum, List.getElem?_eq_getElem hn,
      List.getElem?_eq_getElem hn2]

theorem cnpjSum_twelve (v : GoString) (h : v.length = 14) :
    cnpjSum v multipliers1 (forRange 0 12) 0 =
      some (∑ i in Finset.range 12, byteDigit v i * multipliers1.getD i 0) :=
  cnpjSum_forRange v multipliers1 12 (by omega) (by decide)

theorem cnpjSum_thirteen (v : GoString) (h : v.length = 14) :
    cnpjSum v multipliers2 (forRange 0 13) 0 =
      some (∑ i in Finset.range 13, byteDigit v i * multipliers2.getD i 0) :=
  cnpjSum_forRange v multipliers2 13 (by omega) (by decide)

/-- The control flow of `ValidateCnpj` once the scan, the two sums and the two
check-digit bytes are known. -/
theorem cnpj_flow (v : GoString) (scan : Bool) (s1 s2 g13 g14 : Nat) :
    (do
      let hasDistinctDigits ← some scan
      if !hasDistinctDigits then
        pure (some (Errorf "Invalid CNPJ with no distinct digit: %s" [Arg.str v]))
      else
        let sum ← some s1
        let wantDigit13 := cnpjWant sum
        let gotDigit13 := (← some g13)
        if wantDigit13 != gotDigit13 then
          pure (some (Errorf "expected digit at position 13 to be %d, but got %d"
            [Arg.int wantDigit13, Arg.int gotDigit13]))
        else
          let sum ← some s2
          let wantDigit14 := cnpjWant sum
          let gotDigit14 := (← some g14)
          if wantDigit14 != gotDigit14 then
            pure (some (Errorf "expected digit at position 14 to be %d, but got %d"
              [Arg.int wantDigit14, Arg.int gotDigit14]))
          else
            pure none : Option (Option GoError)) =
      if scan = false then
        some (some (Errorf "Invalid CNPJ with no distinct digit: %s" [Arg.str v]))
      else if cnpjWant s1 ≠ g13 then
        some (some (Errorf "expected digit at position 13 to be %d, but got %d"
          [Arg.int (cnpjWant s1), Arg.int g13]))
      else if cnpjWant s2 ≠ g14 then
        some (some (Errorf "expected digit at position 14 to be %d, but got %d"
          [Arg.int (cnpjWant s2), Arg.int g14]))
      else some none := by
  cases scan
  · rfl
  · by_cases h1 : cnpjWant s1 = g13
    · by_cases h2 : cnpjWant s2 = g14
      · simp [h1, h2]
      · simp [h1, h2]
    · simp [h1]

/-- Closed form of `ValidateCnpj` on a string of length 14: the four exits in order. -/
theorem ValidateCnpj_eq (v : GoString) (h : v.length = 14) :
    ValidateCnpj v =
      if AllEqual v then
        some (some (Errorf "Invalid CNPJ with no distinct digit: %s" [Arg.str v]))
      else if cnpjWant13 v ≠ byteDigit v 12 then
        some (some (Errorf "expected digit at position 13 to be %d, but got %d"
          [Arg.int (cnpjWant13 v), Arg.int (byteDigit v 12)]))
      else if cnpjWant14 v ≠ byteDigit v 13 then
        some (some (Errorf "expected digit at position 14 to be %d, but got %d"
          [Arg.int (cnpjWant14 v), Arg.int (byteDigit v 13)]))
      else some none := by
  have h12 : v[12]? = some (v.getD 12 0) := by
    obtain ⟨a0, a1, a2, a3, a4, a5, a6, a7, a8, a9, a10, a11, a12, a13, rfl⟩ := length_fourteen h
    rfl
  have h13 : v[13]? = some (v.getD 13 0) := by
    obtain ⟨a0, a1, a2, a3, a4, a5, a6, a7, a8, a9, a10, a11, a12, a13, rfl⟩ := length_fourteen h
    rfl
  unfold ValidateCnpj
  rw [distinctScan_fourteen v h, cnpjSum_twelve v h, cnpjSum_thirteen v h, h12, h13]
  refine (cnpj_flow v _ _ _ _ _).trans ?_
  by_cases hall : AllEqual v
  · rw [if_pos (by simpa using hall), if_pos hall]
  · rw [if_neg (by simpa using hall), if_neg hall]
    rfl

theorem ValidateCpfOrCnpj_eleven (v : GoString) (h : v.length = 11) :
    ValidateCpfOrCnpj v = ValidateCpf v := by
  simp [ValidateCpfOrCnpj, h]

theorem ValidateCpfOrCnpj_fourteen (v : GoString) (h : v.length = 14) :
    ValidateCpfOrCnpj v = ValidateCnpj v := by
  simp [ValidateCpfOrCnpj, h]

/-! ## Digit strings -/

theorem byteDigit_eq_digitAt (v : GoString) (hd : IsDigits v) (i : Nat) (hi : i < v.length) :
    byteDigit v i = digitAt v i := by
  have hmem : v[i] ∈ v := List.getElem_mem hi
  have hb := hd _ hmem
  have e : v.getD i 0 = v[i] := by
    simp [List.getD_eq_getElem?_getD, List.getElem?_eq_getElem hi]
  simp only [byteDigit, digitAt, byteSub, char0, char9, e] at hb ⊢
  omega

theorem digitAt_le (v : GoString) (hd : IsDigits v) (i : Nat) (hi : i < v.length) :
    digitAt v i ≤ 9 := by
  have hmem : v[i] ∈ v := List.getElem_mem hi
  have hb := hd _ hmem
  have e : v.getD i 0 = v[i] := by
    simp [List.getD_eq_getElem?_getD, List.getElem?_eq_getElem hi]
  simp only [digitAt, char0, char9, e] at hb ⊢
  omega

theorem cpfWant10_eq_spec (v : GoString) (hlen : v.length = 11) (hd : IsDigits v) :
    cpfWant10 v = specCpfDigit10 v := by
  unfold cpfWant10 specCpfDigit10 specCpfSum10
  rw [Finset.sum_congr rfl fun i hi => by
    rw [byteDigit_eq_digitAt v hd i (by have := Finset.mem_range.mp hi; omega)]]

theorem cpfWant11_eq_spec (v : GoString) (hlen : v.length = 11) (hd : IsDigits v) :
    cpfWant11 v = specCpfDigit11 v := by
  unfold cpfWant11 specCpfDigit11 specCpfSum11
  rw [Finset.sum_congr rfl fun i hi => by
    rw [byteDigit_eq_digitAt v hd i (by have := Finset.mem_range.mp hi; omega)]]

theorem cnpjWant_eq_specCheck (s : Nat) : cnpjWant s = specCheck s := rfl

theorem cnpjWant13_eq_spec (v : GoString) (hlen : v.length = 14) (hd : IsDigits v) :
    cnpjWant13 v = specCnpjDigit13 v := by
  unfold cnpjWant13 specCnpjDigit13 specCnpjSum13
  rw [cnpjWant_eq_specCheck, Finset.sum_congr rfl fun i hi => by
    rw [byteDigit_eq_digitAt v hd i (by have := Finset.mem_range.mp hi; omega),
      Nat.mul_comm]]
  rfl

theorem cnpjWant14_eq_spec (v : GoString) (hlen : v.length = 14) (hd : IsDigits v) :
    cnpjWant14 v = specCnpjDigit14 v := by
  unfold cnpjWant14 specCnpjDigit14 specCnpjSum14
  rw [cnpjWant_eq_specCheck, Finset.sum_congr rfl fun i hi => by
    rw [byteDigit_eq_digitAt v hd i (by have := Finset.mem_range.mp hi; omega),
      Nat.mul_comm]]
  rfl

/-- Closed form of `ValidateCpfOrCnpj` on a string of 11 decimal digits, in the
specification's formulas. -/
theorem ValidateCpfOrCnpj_cpf_digits (v : GoString) (hlen : v.length = 11) (hd : IsDigits v) :
    ValidateCpfOrCnpj v =
      if AllEqual v then
        some (some (Errorf "Invalid CPF with no distinct digit: %s" [Arg.str v]))
      else if specCpfDigit10 v ≠ digitAt v 9 then
        some (some (Errorf "expected digit at position 10 to be %d, but got %d"
          [Arg.int (specCpfDigit10 v), Arg.int (digitAt v 9)]))
      else if specCpfDigit11 v ≠ digitAt v 10 then
        some (some (Errorf "expected digit at position 11 to be %d, but got %d"
          [Arg.int (specCpfDigit11 v), Arg.int (digitAt v 10)]))
      else some none := by
  rw [ValidateCpfOrCnpj_eleven v hlen, ValidateCpf_eq v hlen, cpfWant10_eq_spec v hlen hd,
    cpfWant11_eq_spec v hlen hd, byteDigit_eq_digitAt v hd 9 (by omega),
    byteDigit_eq_digitAt v hd 10 (by omega)]

/-- Closed form of `ValidateCpfOrCnpj` on a string of 14 decimal digits, in the
specification's formulas. -/
theorem ValidateCpfOrCnpj_cnpj_digits (v : GoString) (hlen : v.length = 14) (hd : IsDigits v) :
    ValidateCpfOrCnpj v =
      if AllEqual v then
        some (some (Errorf "Invalid CNPJ with no distinct digit: %s" [Arg.str v]))
      else if specCnpjDigit13 v ≠ digitAt v 12 then
        some (some (Errorf "expected digit at position 13 to be %d, but got %d"
          [Arg.int (specCnpjDigit13 v), Arg.int (digitAt v 12)]))
      else if specCnpjDigit14 v ≠ digitAt v 13 then
        some (some (Errorf "expected digit at position 14 to be %d, but got %d"
          [Arg.int (specCnpjDigit14 v), Arg.int (digitAt v 13)]))
      else some none := by
  rw [ValidateCpfOrCnpj_fourteen v hlen, ValidateCnpj_eq v hlen, cnpjWant13_eq_spec v hlen hd,
    cnpjWant14_eq_spec v hlen hd, byteDigit_eq_digitAt v hd 12 (by omega),
    byteDigit_eq_digitAt v hd 13 (by omega)]

/-! ## Claims -/

/-- C1: for a string of exactly 11 decimal digits, `ValidateCpfOrCnpj` returns nil
if and only if not all characters are equal, the 10th digit equals
`((Σ_{i<9} (10 - i) * d[i]) * 10 mod 11) mod 10` and the 11th digit equals
`((Σ_{i<10} (11 - i) * d[i]) * 10 mod 11) mod 10`. -/
theorem cpf_accepts_iff (v : GoString) (hlen : v.length = 11) (hd : IsDigits v) :
    ValidateCpfOrCnpj v = some none ↔
      (¬ AllEqual v ∧
        digitAt v 9 = (∑ i in Finset.range 9, (10 - i) * digitAt v i) * 10 % 11 % 10 ∧
        digitAt v 10 = (∑ i in Finset.range 10, (11 - i) * digitAt v i) * 10 % 11 % 10) := by
  rw [ValidateCpfOrCnpj_cpf_digits v hlen hd]
  change _ ↔ (¬ AllEqual v ∧ digitAt v 9 = specCpfDigit10 v ∧ digitAt v 10 = specCpfDigit11 v)
  split_ifs with h1 h2 h3
  · simp [h1]
  · simp [h1, Ne.symm h2]
  · simp only [ne_eq, not_not] at h2
    simp [h1, h2, Ne.symm h3]
  · simp only [ne_eq, not_not] at h2 h3
    simp [h1, h2, h3]

/-- Witness of C1 at the string "66849734008". -/
theorem cpf_accepts_iff_witness :
    (bytes "66849734008").length = 11 ∧ IsDigits (bytes "66849734008") ∧
    (ValidateCpfOrCnpj (bytes "66849734008") = some none ↔
      (¬ AllEqual (bytes "66849734008") ∧
        digitAt (bytes "66849734008") 9 =
          (∑ i in Finset.range 9, (10 - i) * digitAt (bytes "66849734008") i) * 10 % 11 % 10 ∧
        digitAt (bytes "66849734008") 10 =
          (∑ i in Finset.range 10, (11 - i) * digitAt (bytes "66849734008") i) * 10 % 11 % 10)) :=
  ⟨by decide, by decide, cpf_accepts_iff (bytes "66849734008") (by decide) (by decide)⟩

/-- C2: for a string of exactly 14 decimal digits, `ValidateCpfOrCnpj` returns nil
if and only if not all characters are equal, `d[12] = check(Σ_{i<12} W1[i] * d[i])` and
`d[13] = check(Σ_{i<13} W2[i] * d[i])`, with `check(s) = 0 if s mod 11 < 2 else 11 - s mod 11`. -/
theorem cnpj_accepts_iff (v : GoString) (hlen : v.length = 14) (hd : IsDigits v) :
    ValidateCpfOrCnpj v = some none ↔
      (¬ AllEqual v ∧
        digitAt v 12 = specCheck (∑ i in Finset.range 12,
          ([5, 4, 3, 2, 9, 8, 7, 6, 5, 4, 3, 2] : List Nat).getD i 0 * digitAt v i) ∧
        digitAt v 13 = specCheck (∑ i in Finset.range 13,
          ([6, 5, 4, 3, 2, 9, 8, 7, 6, 5, 4, 3, 2] : List Nat).getD i 0 * digitAt v i)) := by
  rw [ValidateCpfOrCnpj_cnpj_digits v hlen hd]
  change _ ↔ (¬ AllEqual v ∧ digitAt v 12 = specCnpjDigit13 v ∧ digitAt v 13 = specCnpjDigit14 v)
  split_ifs with h1 h2 h3
  · simp [h1]
  · simp [h1, Ne.symm h2]
  · simp only [ne_eq, not_not] at h2
    simp [h1, h2, Ne.symm h3]
  · simp only [ne_eq, not_not] at h2 h3
    simp [h1, h2, h3]

/-- Witness of C2 at the string "11222333000181". -/
theorem cnpj_accepts_iff_witness :
    (bytes "11222333000181").length = 14 ∧ IsDigits (bytes "11222333000181") ∧
    (ValidateCpfOrCnpj (bytes "11222333000181") = some none ↔
      (¬ AllEqual (bytes "11222333000181") ∧
        digitAt (bytes "11222333000181") 12 = specCheck (∑ i in Finset.range 12,
          ([5, 4, 3, 2, 9, 8, 7, 6, 5, 4, 3, 2] : List Nat).getD i 0 *
            digitAt (bytes "11222333000181") i) ∧
        digitAt (bytes "11222333000181") 13 = specCheck (∑ i in Finset.range 13,
          ([6, 5, 4, 3, 2, 9, 8, 7, 6, 5, 4, 3, 2] : List Nat).getD i 0 *
            digitAt (bytes "11222333000181") i))) :=
  ⟨by decide, by decide, cnpj_accepts_iff (bytes "11222333000181") (by decide) (by decide)⟩

/-- C3: on a string whose length is neither 11 nor 14, `ValidateCpfOrCnpj` returns a
non-nil error, the one built from "invalid CPF or CNPJ with length %d: %s" with the
length and the string, whose message is that text followed by the length in decimal,
": " and the string itself. -/
theorem invalid_length (v : GoString) (h : v.length ≠ 11 ∧ v.length ≠ 14) :
    ValidateCpfOrCnpj v =
        some (some (Errorf "invalid CPF or CNPJ with length %d: %s"
          [Arg.int v.length, Arg.str v])) ∧
      (Errorf "invalid CPF or CNPJ with length %d: %s" [Arg.int v.length, Arg.str v]).message =
        bytes "invalid CPF or CNPJ with length " ++ (decimal v.length ++ (bytes ": " ++ v)) := by
  constructor
  · simp [ValidateCpfOrCnpj, h.1, h.2]
  · simp [GoError.message, Errorf, Sprintf, bytes]

/-- Witness of C3 at the ten-character string "0123456789" of the test table. -/
theorem invalid_length_witness :
    ((bytes "0123456789").length ≠ 11 ∧ (bytes "0123456789").length ≠ 14) ∧
    (ValidateCpfOrCnpj (bytes "0123456789") =
        some (some (Errorf "invalid CPF or CNPJ with length %d: %s"
          [Arg.int (bytes "0123456789").length, Arg.str (bytes "0123456789")])) ∧
      (Errorf "invalid CPF or CNPJ with length %d: %s"
          [Arg.int (bytes "0123456789").length, Arg.str (bytes "0123456789")]).message =
        bytes "invalid CPF or CNPJ with length " ++
          (decimal (bytes "0123456789").length ++ (bytes ": " ++ bytes "0123456789"))) :=
  ⟨by decide, invalid_length (bytes "0123456789") (by decide)⟩

theorem allEqual_replicate (n c : Nat) : AllEqual (List.replicate n c) := by
  intro x hx y hy
  rw [List.eq_of_mem_replicate hx, List.eq_of_mem_replicate hy]

/-- C4: on a string of length 11 or 14 (any bytes), `ValidateCpfOrCnpj` returns the
repeated-digit error ("Invalid CPF with no distinct digit: " for length 11,
"Invalid CNPJ with no distinct digit: " for length 14, followed by the string) if and
only if all bytes of the string are equal; in particular a byte repeated 11 or 14 times
is rejected with that error. -/
theorem repeated_digit_iff (v : GoString) (hlen : v.length = 11 ∨ v.length = 14) :
    (ValidateCpfOrCnpj v =
        some (some (Errorf (if v.length = 11 then "Invalid CPF with no distinct digit: %s"
          else "Invalid CNPJ with no distinct digit: %s") [Arg.str v])) ↔ AllEqual v) ∧
      (∀ c, v = List.replicate v.length c →
        ValidateCpfOrCnpj v =
          some (some (Errorf (if v.length = 11 then "Invalid CPF with no distinct digit: %s"
            else "Invalid CNPJ with no distinct digit: %s") [Arg.str v]))) ∧
      (Errorf (if v.length = 11 then "Invalid CPF with no distinct digit: %s"
          else "Invalid CNPJ with no distinct digit: %s") [Arg.str v]).message =
        bytes (if v.length = 11 then "Invalid CPF with no distinct digit: "
          else "Invalid CNPJ with no distinct digit: ") ++ v := by
  have key : ValidateCpfOrCnpj v =
        some (some (Errorf (if v.length = 11 then "Invalid CPF with no distinct digit: %s"
          else "Invalid CNPJ with no distinct digit: %s") [Arg.str v])) ↔ AllEqual v := by
    rcases hlen with h | h
    · rw [ValidateCpfOrCnpj_eleven v h, ValidateCpf_eq v h, if_pos h]
      split_ifs with h1 h2 h3 <;> simp [h1, Errorf]
    · have h11 : ¬ v.length = 11 := by omega
      rw [ValidateCpfOrCnpj_fourteen v h, ValidateCnpj_eq v h, if_neg h11]
      split_ifs with h1 h2 h3 <;> simp [h1, Errorf]
  refine ⟨key, fun c hc => key.mpr ?_, ?_⟩
  · rw [hc]; exact allEqual_replicate _ _
  · rcases hlen with h | h
    · rw [if_pos h, if_pos h]
      simp [GoError.message, Errorf, Sprintf, bytes]
    · have h11 : ¬ v.length = 11 := by omega
      rw [if_neg h11, if_neg h11]
      simp [GoError.message, Errorf, Sprintf, bytes]

/-- Witness of C4 at the string "11111111111". -/
theorem repeated_digit_iff_witness :
    ((bytes "11111111111").length = 11 ∨ (bytes "11111111111").length = 14) ∧
    ((ValidateCpfOrCnpj (bytes "11111111111") =
        some (some (Errorf (if (bytes "11111111111").length = 11
          then "Invalid CPF with no distinct digit: %s"
          else "Invalid CNPJ with no distinct digit: %s") [Arg.str (bytes "11111111111")])) ↔
        AllEqual (bytes "11111111111")) ∧
      (∀ c, bytes "11111111111" = List.replicate (bytes "11111111111").length c →
        ValidateCpfOrCnpj (bytes "11111111111") =
          some (some (Errorf (if (bytes "11111111111").length = 11
            then "Invalid CPF with no distinct digit: %s"
            else "Invalid CNPJ with no distinct digit: %s") [Arg.str (bytes "11111111111")]))) ∧
      (Errorf (if (bytes "11111111111").length = 11 then "Invalid CPF with no distinct digit: %s"
          else "Invalid CNPJ with no distinct digit: %s") [Arg.str (bytes "11111111111")]).message =
        bytes (if (bytes "11111111111").length = 11 then "Invalid CPF with no distinct digit: "
          else "Invalid CNPJ with no distinct digit: ") ++ bytes "11111111111") :=
  ⟨by decide, repeated_digit_iff (bytes "11111111111") (by decide)⟩

theorem message_mismatch10 (a b : Nat) :
    (Errorf "expected digit at position 10 to be %d, but got %d" [Arg.int a, Arg.int b]).message =
      bytes "expected digit at position 10 to be " ++ (decimal a ++ (bytes ", but got " ++ decimal b)) := by
  simp [GoError.message, Errorf, Sprintf, bytes]

theorem message_mismatch11 (a b : Nat) :
    (Errorf "expected digit at position 11 to be %d, but got %d" [Arg.int a, Arg.int b]).message =
      bytes "expected digit at position 11 to be " ++ (decimal a ++ (bytes ", but got " ++ decimal b)) := by
  simp [GoError.message, Errorf, Sprintf, bytes]

theorem message_mismatch13 (a b : Nat) :
    (Errorf "expected digit at position 13 to be %d, but got %d" [Arg.int a, Arg.int b]).message =
      bytes "expected digit at position 13 to be " ++ (decimal a ++ (bytes ", but got " ++ decimal b)) := by
  simp [GoError.message, Errorf, Sprintf, bytes]

theorem message_mismatch14 (a b : Nat) :
    (Errorf "expected digit at position 14 to be %d, but got %d" [Arg.int a, Arg.int b]).message =
      bytes "expected digit at position 14 to be " ++ (decimal a ++ (bytes ", but got " ++ decimal b)) := by
  simp [GoError.message, Errorf, Sprintf, bytes]

/-- C5: on a string of 11 decimal digits that are not all equal, if the 10th digit
differs from its expected value `e1` the result is the error "expected digit at
position 10 to be e1, but got d[9]", whatever the 11th digit is; if the 10th digit is
right and the 11th differs from its expected value `e2` the result is the error
"expected digit at position 11 to be e2, but got d[10]". -/
theorem cpf_mismatch_reported (v : GoString) (hlen : v.length = 11) (hd : IsDigits v)
    (hne : ¬ AllEqual v) :
    (digitAt v 9 ≠ specCpfDigit10 v →
      ValidateCpfOrCnpj v =
          some (some (Errorf "expected digit at position 10 to be %d, but got %d"
            [Arg.int (specCpfDigit10 v), Arg.int (digitAt v 9)])) ∧
        (Errorf "expected digit at position 10 to be %d, but got %d"
            [Arg.int (specCpfDigit10 v), Arg.int (digitAt v 9)]).message =
          bytes "expected digit at position 10 to be " ++
            (decimal (specCpfDigit10 v) ++ (bytes ", but got " ++ decimal (digitAt v 9)))) ∧
    (digitAt v 9 = specCpfDigit10 v → digitAt v 10 ≠ specCpfDigit11 v →
      ValidateCpfOrCnpj v =
          some (some (Errorf "expected digit at position 11 to be %d, but got %d"
            [Arg.int (specCpfDigit11 v), Arg.int (digitAt v 10)])) ∧
        (Errorf "expected digit at position 11 to be %d, but got %d"
            [Arg.int (specCpfDigit11 v), Arg.int (digitAt v 10)]).message =
          bytes "expected digit at position 11 to be " ++
            (decimal (specCpfDigit11 v) ++ (bytes ", but got " ++ decimal (digitAt v 10)))) := by
  rw [ValidateCpfOrCnpj_cpf_digits v hlen hd, if_neg hne]
  refine ⟨fun h1 => ⟨?_, message_mismatch10 _ _⟩, fun h1 h2 => ⟨?_, message_mismatch11 _ _⟩⟩
  · rw [if_pos (Ne.symm h1)]
  · rw [if_neg (by simp [h1]), if_pos (Ne.symm h2)]

/-- Witness of C5 at "66849734018", whose 10th digit is wrong. -/
theorem cpf_mismatch_reported_witness :
    (bytes "66849734018").length = 11 ∧ IsDigits (bytes "66849734018") ∧
    ¬ AllEqual (bytes "66849734018") ∧
    digitAt (bytes "66849734018") 9 ≠ specCpfDigit10 (bytes "66849734018") ∧
    ValidateCpfOrCnpj (bytes "66849734018") =
      some (some (Errorf "expected digit at position 10 to be %d, but got %d"
        [Arg.int (specCpfDigit10 (bytes "66849734018")),
          Arg.int (digitAt (bytes "66849734018") 9)])) :=
  ⟨by decide, by decide, by decide, by decide,
    ((cpf_mismatch_reported (bytes "66849734018") (by decide) (by decide) (by decide)).1
      (by decide)).1⟩

/-- C6: on a string of 14 decimal digits that are not all equal, if the 13th digit
differs from its expected value `e13` the result is the error "expected digit at
position 13 to be e13, but got d[12]", whatever the 14th digit is; if the 13th digit is
right and the 14th differs from its expected value `e14` the result is the error
"expected digit at position 14 to be e14, but got d[13]". -/
theorem cnpj_mismatch_reported (v : GoString) (hlen : v.length = 14) (hd : IsDigits v)
    (hne : ¬ AllEqual v) :
    (digitAt v 12 ≠ specCnpjDigit13 v →
      ValidateCpfOrCnpj v =
          some (some (Errorf "expected digit at position 13 to be %d, but got %d"
            [Arg.int (specCnpjDigit13 v), Arg.int (digitAt v 12)])) ∧
        (Errorf "expected digit at position 13 to be %d, but got %d"
            [Arg.int (specCnpjDigit13 v), Arg.int (digitAt v 12)]).message =
          bytes "expected digit at position 13 to be " ++
            (decimal (specCnpjDigit13 v) ++ (bytes ", but got " ++ decimal (digitAt v 12)))) ∧
    (digitAt v 12 = specCnpjDigit13 v → digitAt v 13 ≠ specCnpjDigit14 v →
      ValidateCpfOrCnpj v =
          some (some (Errorf "expected digit at position 14 to be %d, but got %d"
            [Arg.int (specCnpjDigit14 v), Arg.int (digitAt v 13)])) ∧
        (Errorf "expected digit at position 14 to be %d, but got %d"
            [Arg.int (specCnpjDigit14 v), Arg.int (digitAt v 13)]).message =
          bytes "expected digit at position 14 to be " ++
            (decimal (specCnpjDigit14 v) ++ (bytes ", but got " ++ decimal (digitAt v 13)))) := by
  rw [ValidateCpfOrCnpj_cnpj_digits v hlen hd, if_neg hne]
  refine ⟨fun h1 => ⟨?_, message_mismatch13 _ _⟩, fun h1 h2 => ⟨?_, message_mismatch14 _ _⟩⟩
  · rw [if_pos (Ne.symm h1)]
  · rw [if_neg (by simp [h1]), if_pos (Ne.symm h2)]

/-- Witness of C6 at "11222333000182", whose 13th digit is right and 14th wrong. -/
theorem cnpj_mismatch_reported_witness :
    (bytes "11222333000182").length = 14 ∧ IsDigits (bytes "11222333000182") ∧
    ¬ AllEqual (bytes "11222333000182") ∧
    digitAt (bytes "11222333000182") 12 = specCnpjDigit13 (bytes "11222333000182") ∧
    digitAt (bytes "11222333000182") 13 ≠ specCnpjDigit14 (bytes "11222333000182") ∧
    ValidateCpfOrCnpj (bytes "11222333000182") =
      some (some (Errorf "expected digit at position 14 to be %d, but got %d"
        [Arg.int (specCnpjDigit14 (bytes "11222333000182")),
          Arg.int (digitAt (bytes "11222333000182") 13)])) :=
  ⟨by decide, by decide, by decide, by decide, by decide,
    ((cnpj_mismatch_reported (bytes "11222333000182") (by decide) (by decide) (by decide)).2
      (by decide) (by decide)).1⟩

/-- C7: `ValidateCpfOrCnpj` returns nil on the CPFs "66849734008" and "45091647007". -/
theorem known_valid_cpfs :
    ValidateCpfOrCnpj (bytes "66849734008") = some none ∧
      ValidateCpfOrCnpj (bytes "45091647007") = some none := by
  decide

/-! ## Single-digit mutations -/

/-- Acceptance of an 11-digit string in the specification's formulas. -/
theorem cpf_accepts_spec (v : GoString) (hlen : v.length = 11) (hd : IsDigits v) :
    ValidateCpfOrCnpj v = some none ↔
      (¬ AllEqual v ∧ digitAt v 9 = specCpfDigit10 v ∧ digitAt v 10 = specCpfDigit11 v) := by
  rw [ValidateCpfOrCnpj_cpf_digits v hlen hd]
  split_ifs with h1 h2 h3
  · simp [h1]
  · simp [h1, Ne.symm h2]
  · simp only [ne_eq, not_not] at h2
    simp [h1, h2, Ne.symm h3]
  · simp only [ne_eq, not_not] at h2 h3
    simp [h1, h2, h3]

theorem isDigits_eleven (a0 a1 a2 a3 a4 a5 a6 a7 a8 a9 a10 : Nat) :
    IsDigits [a0, a1, a2, a3, a4, a5, a6, a7, a8, a9, a10] ↔
      ((48 ≤ a0 ∧ a0 ≤ 57) ∧ (48 ≤ a1 ∧ a1 ≤ 57) ∧ (48 ≤ a2 ∧ a2 ≤ 57) ∧ (48 ≤ a3 ∧ a3 ≤ 57) ∧
        (48 ≤ a4 ∧ a4 ≤ 57) ∧ (48 ≤ a5 ∧ a5 ≤ 57) ∧ (48 ≤ a6 ∧ a6 ≤ 57) ∧ (48 ≤ a7 ∧ a7 ≤ 57) ∧
        (48 ≤ a8 ∧ a8 ≤ 57) ∧ (48 ≤ a9 ∧ a9 ≤ 57) ∧ (48 ≤ a10 ∧ a10 ≤ 57)) := by
  simp [IsDigits, char0, char9]

theorem specCpfDigit10_eleven (a0 a1 a2 a3 a4 a5 a6 a7 a8 a9 a10 : Nat) :
    specCpfDigit10 [a0, a1, a2, a3, a4, a5, a6, a7, a8, a9, a10] =
      (10 * (a0 - 48) + 9 * (a1 - 48) + 8 * (a2 - 48) + 7 * (a3 - 48) + 6 * (a4 - 48) +
        5 * (a5 - 48) + 4 * (a6 - 48) + 3 * (a7 - 48) + 2 * (a8 - 48)) * 10 % 11 % 10 := by
  simp [specCpfDigit10, specCpfSum10, digitAt, Finset.sum_range_succ, char0]

theorem specCpfDigit11_eleven (a0 a1 a2 a3 a4 a5 a6 a7 a8 a9 a10 : Nat) :
    specCpfDigit11 [a0, a1, a2, a3, a4, a5, a6, a7, a8, a9, a10] =
      (11 * (a0 - 48) + 10 * (a1 - 48) + 9 * (a2 - 48) + 8 * (a3 - 48) + 7 * (a4 - 48) +
        6 * (a5 - 48) + 5 * (a6 - 48) + 4 * (a7 - 48) + 3 * (a8 - 48) + 2 * (a9 - 48)) *
          10 % 11 % 10 := by
  simp [specCpfDigit11, specCpfSum11, digitAt, Finset.sum_range_succ, char0]

/-- C8: in an accepted 11-digit string, replacing the 10th digit by another decimal
digit gives a string rejected with the check-digit mismatch at position 10 (expected:
the original digit), and replacing the 11th digit by another decimal digit gives a
string rejected with the mismatch at position 11. -/
theorem cpf_check_digit_mutation (v : GoString) (hlen : v.length = 11) (hd : IsDigits v)
    (hacc : ValidateCpfOrCnpj v = some none) (c : Nat) (hc : char0 ≤ c ∧ c ≤ char9) :
    (c ≠ v.getD 9 0 →
      ValidateCpfOrCnpj (v.set 9 c) =
        some (some (Errorf "expected digit at position 10 to be %d, but got %d"
          [Arg.int (digitAt v 9), Arg.int (c - char0)]))) ∧
    (c ≠ v.getD 10 0 →
      ValidateCpfOrCnpj (v.set 10 c) =
        some (some (Errorf "expected digit at position 11 to be %d, but got %d"
          [Arg.int (digitAt v 10), Arg.int (c - char0)]))) := by
  obtain ⟨h1, h2, h3⟩ := (cpf_accepts_spec v hlen hd).mp hacc
  obtain ⟨a0, a1, a2, a3, a4, a5, a6, a7, a8, a9, a10, rfl⟩ := length_eleven hlen
  rw [allEqual_eleven] at h1
  rw [isDigits_eleven] at hd
  rw [specCpfDigit10_eleven] at h2
  rw [specCpfDigit11_eleven] at h3
  simp only [digitAt, List.getD_cons_succ, List.getD_cons_zero, char0, char9] at h2 h3 hc ⊢
  constructor
  · intro hne
    have hd2 : IsDigits [a0, a1, a2, a3, a4, a5, a6, a7, a8, c, a10] := by
      rw [isDigits_eleven]; omega
    have e : [a0, a1, a2, a3, a4, a5, a6, a7, a8, a9, a10].set 9 c =
        [a0, a1, a2, a3, a4, a5, a6, a7, a8, c, a10] := rfl
    have hall : ¬ AllEqual [a0, a1, a2, a3, a4, a5, a6, a7, a8, c, a10] := by
      rw [allEqual_eleven]
      rintro ⟨rfl, rfl, rfl, rfl, rfl, rfl, rfl, rfl, rfl, rfl⟩
      obtain ⟨hl, hu⟩ : 48 ≤ a0 ∧ a0 ≤ 57 := by omega
      interval_cases a0 <;> omega
    have hw : specCpfDigit10 [a0, a1, a2, a3, a4, a5, a6, a7, a8, c, a10] = a9 - 48 := by
      rw [specCpfDigit10_eleven, ← h2]
    have hg : digitAt [a0, a1, a2, a3, a4, a5, a6, a7, a8, c, a10] 9 = c - 48 := rfl
    have hm : a9 - 48 ≠ c - 48 := by omega
    rw [e, ValidateCpfOrCnpj_cpf_digits _ (by rfl) hd2, if_neg hall, hw, hg, if_pos hm]
  · intro hne
    have hd2 : IsDigits [a0, a1, a2, a3, a4, a5, a6, a7, a8, a9, c] := by
      rw [isDigits_eleven]; omega
    have e : [a0, a1, a2, a3, a4, a5, a6, a7, a8, a9, a10].set 10 c =
        [a0, a1, a2, a3, a4, a5, a6, a7, a8, a9, c] := rfl
    have hall : ¬ AllEqual [a0, a1, a2, a3, a4, a5, a6, a7, a8, a9, c] := by
      rw [allEqual_eleven]
      rintro ⟨rfl, rfl, rfl, rfl, rfl, rfl, rfl, rfl, rfl, rfl⟩
      obtain ⟨hl, hu⟩ : 48 ≤ a0 ∧ a0 ≤ 57 := by omega
      interval_cases a0 <;> omega
    have hw1 : specCpfDigit10 [a0, a1, a2, a3, a4, a5, a6, a7, a8, a9, c] = a9 - 48 := by
      rw [specCpfDigit10_eleven, ← h2]
    have hg1 : digitAt [a0, a1, a2, a3, a4, a5, a6, a7, a8, a9, c] 9 = a9 - 48 := rfl
    have hw : specCpfDigit11 [a0, a1, a2, a3, a4, a5, a6, a7, a8, a9, c] = a10 - 48 := by
      rw [specCpfDigit11_eleven, ← h3]
    have hg : digitAt [a0, a1, a2, a3, a4, a5, a6, a7, a8, a9, c] 10 = c - 48 := rfl
    have hm : a10 - 48 ≠ c - 48 := by omega
    rw [e, ValidateCpfOrCnpj_cpf_digits _ (by rfl) hd2, if_neg hall, hw1, hg1,
      if_neg (by simp), hw, hg, if_pos hm]

/-- Witness of C8 at "66849734008": the mutations of the test table,
"66849734018" (10th digit) and "66849734005" (11th digit). -/
theorem cpf_check_digit_mutation_witness :
    (bytes "66849734008").length = 11 ∧ IsDigits (bytes "66849734008") ∧
    ValidateCpfOrCnpj (bytes "66849734008") = some none ∧
    (bytes "66849734008").set 9 49 = bytes "66849734018" ∧
    ValidateCpfOrCnpj ((bytes "66849734008").set 9 49) =
      some (some (Errorf "expected digit at position 10 to be %d, but got %d"
        [Arg.int (digitAt (bytes "66849734008") 9), Arg.int (49 - char0)])) ∧
    (bytes "66849734008").set 10 53 = bytes "66849734005" ∧
    ValidateCpfOrCnpj ((bytes "66849734008").set 10 53) =
      some (some (Errorf "expected digit at position 11 to be %d, but got %d"
        [Arg.int (digitAt (bytes "66849734008") 10), Arg.int (53 - char0)])) :=
  ⟨by decide, by decide, by decide, by decide,
    (cpf_check_digit_mutation (bytes "66849734008") (by decide) (by decide) (by decide) 49
      (by decide)).1 (by decide),
    by decide,
    (cpf_check_digit_mutation (bytes "66849734008") (by decide) (by decide) (by decide) 53
      (by decide)).2 (by decide)⟩

/-- Two weighted sums give the same CPF check digit only when they agree modulo 11 or
are 0 and 1 modulo 11 (remainders 0 and 10 both give the digit 0). -/
theorem cpf_digit_eq (s t : Nat) (h : s * 10 % 11 % 10 = t * 10 % 11 % 10) :
    s % 11 = t % 11 ∨ (s % 11 = 0 ∧ t % 11 = 1) ∨ (s % 11 = 1 ∧ t % 11 = 0) := by
  have hs : s * 10 % 11 = (s % 11) * 10 % 11 := by omega
  have ht : t * 10 % 11 = (t % 11) * 10 % 11 := by omega
  rw [hs, ht] at h
  have h1 : s % 11 < 11 := Nat.mod_lt _ (by decide)
  have h2 : t % 11 < 11 := Nat.mod_lt _ (by decide)
  generalize s % 11 = m at h h1
  generalize t % 11 = n at h h2
  interval_cases m <;> interval_cases n <;> simp_all

/-- Arithmetic core of single-digit error detection: away from the positions 0 and 5,
changing one of the first nine digits cannot leave both check digits unchanged. -/
theorem mutation_core (p x y U1 V1 U2 V2 : Nat) (hp : p ∈ [1, 2, 3, 4, 6, 7, 8])
    (hx : x ≤ 9) (hy : y ≤ 9) (hxy : x ≠ y)
    (u1 : V1 + (10 - p) * x = U1 + (10 - p) * y)
    (u2 : V2 + (11 - p) * x = U2 + (11 - p) * y)
    (e1 : U1 % 11 = V1 % 11 ∨ (U1 % 11 = 0 ∧ V1 % 11 = 1) ∨ (U1 % 11 = 1 ∧ V1 % 11 = 0))
    (e2 : U2 % 11 = V2 % 11 ∨ (U2 % 11 = 0 ∧ V2 % 11 = 1) ∨ (U2 % 11 = 1 ∧ V2 % 11 = 0)) :
    False := by
  simp only [List.mem_cons, List.mem_singleton, List.not_mem_nil, or_false] at hp
  rcases hp with rfl | rfl | rfl | rfl | rfl | rfl | rfl <;>
    simp only [Nat.reduceSub] at u1 u2 <;> omega

theorem digitAt_set_ne (v : GoString) (p c i : Nat) (h : i ≠ p) :
    digitAt (v.set p c) i = digitAt v i := by
  simp [digitAt, List.getElem?_set_ne (Ne.symm h)]

theorem digitAt_set_self (v : GoString) (p c : Nat) (hp : p < v.length) :
    digitAt (v.set p c) p = c - char0 := by
  simp [digitAt, hp]

theorem getD_digit (v : GoString) (hd : IsDigits v) (i : Nat) (hi : i < v.length) :
    char0 ≤ v.getD i 0 ∧ v.getD i 0 ≤ char9 := by
  have e : v.getD i 0 = v[i] := by
    simp [List.getD_eq_getElem?_getD, List.getElem?_eq_getElem hi]
  rw [e]
  exact hd _ (List.getElem_mem hi)

theorem isDigits_set (v : GoString) (hd : IsDigits v) (p c : Nat)
    (hc : char0 ≤ c ∧ c ≤ char9) : IsDigits (v.set p c) := by
  intro b hb
  rcases List.mem_or_eq_of_mem_set hb with h | h
  · exact hd b h
  · rw [h]; exact hc

/-- Effect of replacing one digit on a weighted digit sum that covers its position. -/
theorem weighted_sum_set (w : Nat → Nat) (n p : Nat) (hp : p < n) (v : GoString) (c : Nat) :
    (∑ i in Finset.range n, w i * digitAt (v.set p c) i) + w p * digitAt v p =
      (∑ i in Finset.range n, w i * digitAt v i) + w p * digitAt (v.set p c) p := by
  have hm : p ∈ Finset.range n := Finset.mem_range.mpr hp
  rw [← Finset.add_sum_erase (Finset.range n) (fun i => w i * digitAt (v.set p c) i) hm,
    ← Finset.add_sum_erase (Finset.range n) (fun i => w i * digitAt v i) hm]
  have hrest : ∑ i in (Finset.range n).erase p, w i * digitAt (v.set p c) i =
      ∑ i in (Finset.range n).erase p, w i * digitAt v i :=
    Finset.sum_congr rfl fun i hi => by
      rw [digitAt_set_ne v p c i (Finset.ne_of_mem_erase hi)]
  rw [hrest]
  ring

/-- A weighted digit sum is unchanged by replacing a digit outside the range it covers. -/
theorem weighted_sum_set_ge (w : Nat → Nat) (n p : Nat) (hp : n ≤ p) (v : GoString) (c : Nat) :
    (∑ i in Finset.range n, w i * digitAt (v.set p c) i) =
      ∑ i in Finset.range n, w i * digitAt v i :=
  Finset.sum_congr rfl fun i hi => by
    rw [digitAt_set_ne v p c i (by have := Finset.mem_range.mp hi; omega)]

/-- On 11 decimal digits the result is nil or an error, never a panic. -/
theorem cpf_result_cases (v : GoString) (hlen : v.length = 11) (hd : IsDigits v) :
    ValidateCpfOrCnpj v = some none ∨ ∃ e, ValidateCpfOrCnpj v = some (some e) := by
  rw [ValidateCpfOrCnpj_cpf_digits v hlen hd]
  split_ifs
  · exact Or.inr ⟨_, rfl⟩
  · exact Or.inr ⟨_, rfl⟩
  · exact Or.inr ⟨_, rfl⟩
  · exact Or.inl rfl

/-- C9: altering a single digit of a valid CPF does not always cause an error. The CPF
"45091647007" of the test table is accepted, and so is "55091647007", obtained from it
by replacing the digit at position 0 (4 by 5), although the test table says of its
mutations that altering any digit must cause an error; likewise "92947822200" and
"92947622200", which differ at position 5, are both accepted. -/
theorem cpf_single_digit_change_accepted :
    ValidateCpfOrCnpj (bytes "45091647007") = some none ∧
      (bytes "45091647007").set 0 53 = bytes "55091647007" ∧
      53 ≠ (bytes "45091647007").getD 0 0 ∧
      ValidateCpfOrCnpj ((bytes "45091647007").set 0 53) = some none ∧
      ValidateCpfOrCnpj (bytes "92947822200") = some none ∧
      (bytes "92947822200").set 5 54 = bytes "92947622200" ∧
      54 ≠ (bytes "92947822200").getD 5 0 ∧
      ValidateCpfOrCnpj ((bytes "92947822200").set 5 54) = some none := by
  decide

/-- Detection away from the positions 0 and 5: in an accepted 11-digit string,
replacing the digit at one of the positions 1, 2, 3, 4, 6, 7, 8, 9, 10 by a different
decimal digit gives a string on which `ValidateCpfOrCnpj` returns an error. -/
theorem cpf_digit_mutation_rejected (v : GoString) (hlen : v.length = 11) (hd : IsDigits v)
    (hacc : ValidateCpfOrCnpj v = some none) (p : Nat)
    (hp : p ∈ [1, 2, 3, 4, 6, 7, 8, 9, 10]) (c : Nat) (hc : char0 ≤ c ∧ c ≤ char9)
    (hne : c ≠ v.getD p 0) :
    ∃ e, ValidateCpfOrCnpj (v.set p c) = some (some e) := by
  have hp11 : p < v.length := by
    simp only [List.mem_cons, List.mem_singleton, List.not_mem_nil, or_false] at hp
    omega
  have hlen2 : (v.set p c).length = 11 := by rw [List.length_set, hlen]
  have hd2 : IsDigits (v.set p c) := isDigits_set v hd p c hc
  rcases cpf_result_cases _ hlen2 hd2 with hacc2 | h
  swap
  · exact h
  exfalso
  obtain ⟨-, h2, h3⟩ := (cpf_accepts_spec v hlen hd).mp hacc
  obtain ⟨-, k2, k3⟩ := (cpf_accepts_spec _ hlen2 hd2).mp hacc2
  have hx : digitAt v p ≤ 9 := digitAt_le v hd p hp11
  have hy : digitAt (v.set p c) p = c - char0 := digitAt_set_self v p c hp11
  have hb := getD_digit v hd p hp11
  have hxy : digitAt v p ≠ c - char0 := by
    simp only [digitAt, char0, char9] at hb hc ⊢
    omega
  have hy9 : c - char0 ≤ 9 := by
    simp only [char0, char9] at hc ⊢
    omega
  unfold specCpfDigit10 at h2 k2
  unfold specCpfDigit11 at h3 k3
  by_cases hp9 : p = 9
  · subst hp9
    have s1 : specCpfSum10 (v.set 9 c) = specCpfSum10 v :=
      weighted_sum_set_ge (fun i => 10 - i) 9 9 (by decide) v c
    rw [s1, hy, ← h2] at k2
    exact hxy k2.symm
  by_cases hp10 : p = 10
  · subst hp10
    have s2 : specCpfSum11 (v.set 10 c) = specCpfSum11 v :=
      weighted_sum_set_ge (fun i => 11 - i) 10 10 (by decide) v c
    rw [s2, hy, ← h3] at k3
    exact hxy k3.symm
  have hp7 : p ∈ [1, 2, 3, 4, 6, 7, 8] := by
    simp only [List.mem_cons, List.mem_singleton, List.not_mem_nil, or_false] at hp ⊢
    omega
  have hp8 : p < 9 := by
    simp only [List.mem_cons, List.mem_singleton, List.not_mem_nil, or_false] at hp
    omega
  have u1 : specCpfSum10 (v.set p c) + (10 - p) * digitAt v p =
      specCpfSum10 v + (10 - p) * digitAt (v.set p c) p :=
    weighted_sum_set (fun i => 10 - i) 9 p hp8 v c
  have u2 : specCpfSum11 (v.set p c) + (11 - p) * digitAt v p =
      specCpfSum11 v + (11 - p) * digitAt (v.set p c) p :=
    weighted_sum_set (fun i => 11 - i) 10 p (by omega) v c
  rw [hy] at u1 u2
  rw [digitAt_set_ne v p c 9 (by omega)] at k2
  rw [digitAt_set_ne v p c 10 (by omega)] at k3
  exact mutation_core p (digitAt v p) (c - char0) _ _ _ _ hp7 hx hy9 hxy u1 u2
    (cpf_digit_eq _ _ (h2.symm.trans k2)) (cpf_digit_eq _ _ (h3.symm.trans k3))

/-- Instance of the detection at "45091647007": the mutation "45291647007" of the test
table (position 2). -/
theorem cpf_digit_mutation_rejected_witness :
    (bytes "45091647007").length = 11 ∧ IsDigits (bytes "45091647007") ∧
    ValidateCpfOrCnpj (bytes "45091647007") = some none ∧
    (bytes "45091647007").set 2 50 = bytes "45291647007" ∧
    ∃ e, ValidateCpfOrCnpj ((bytes "45091647007").set 2 50) = some (some e) :=
  ⟨by decide, by decide, by decide, by decide,
    cpf_digit_mutation_rejected (bytes "45091647007") (by decide) (by decide) (by decide) 2
      (by decide) 50 (by decide) (by decide)⟩

/-- Arithmetic core at position 0 (weights 10 and 11): a change of the first digit
that leaves both check digits unchanged is a change by exactly one. -/
theorem mutation_core_first (x y U1 V1 : Nat) (hx : x ≤ 9) (hy : y ≤ 9) (hxy : x ≠ y)
    (h : x + 1 ≠ y ∧ y + 1 ≠ x)
    (u1 : V1 + 10 * x = U1 + 10 * y)
    (e1 : U1 % 11 = V1 % 11 ∨ (U1 % 11 = 0 ∧ V1 % 11 = 1) ∨ (U1 % 11 = 1 ∧ V1 % 11 = 0)) :
    False := by
  omega

/-- Arithmetic core at position 5 (weights 5 and 6): a change of that digit that leaves
both check digits unchanged is a change by exactly two or exactly nine. -/
theorem mutation_core_sixth (x y U1 V1 U2 V2 : Nat) (hx : x ≤ 9) (hy : y ≤ 9) (hxy : x ≠ y)
    (h : (x + 2 ≠ y ∧ y + 2 ≠ x) ∧ (x + 9 ≠ y ∧ y + 9 ≠ x))
    (u1 : V1 + 5 * x = U1 + 5 * y)
    (u2 : V2 + 6 * x = U2 + 6 * y)
    (e1 : U1 % 11 = V1 % 11 ∨ (U1 % 11 = 0 ∧ V1 % 11 = 1) ∨ (U1 % 11 = 1 ∧ V1 % 11 = 0))
    (e2 : U2 % 11 = V2 % 11 ∨ (U2 % 11 = 0 ∧ V2 % 11 = 1) ∨ (U2 % 11 = 1 ∧ V2 % 11 = 0)) :
    False := by
  omega

/-- The equations that hold when an accepted 11-digit string stays accepted after one
of its first nine digits is replaced. -/
theorem cpf_mutation_equations (v : GoString) (hlen : v.length = 11) (hd : IsDigits v)
    (hacc : ValidateCpfOrCnpj v = some none) (p : Nat) (hp : p < 9) (c : Nat)
    (hc : char0 ≤ c ∧ c ≤ char9)
    (hacc2 : ValidateCpfOrCnpj (v.set p c) = some none) :
    specCpfSum10 (v.set p c) + (10 - p) * digitAt v p =
        specCpfSum10 v + (10 - p) * (c - char0) ∧
      specCpfSum11 (v.set p c) + (11 - p) * digitAt v p =
        specCpfSum11 v + (11 - p) * (c - char0) ∧
      (specCpfSum10 v % 11 = specCpfSum10 (v.set p c) % 11 ∨
        (specCpfSum10 v % 11 = 0 ∧ specCpfSum10 (v.set p c) % 11 = 1) ∨
        (specCpfSum10 v % 11 = 1 ∧ specCpfSum10 (v.set p c) % 11 = 0)) ∧
      (specCpfSum11 v % 11 = specCpfSum11 (v.set p c) % 11 ∨
        (specCpfSum11 v % 11 = 0 ∧ specCpfSum11 (v.set p c) % 11 = 1) ∨
        (specCpfSum11 v % 11 = 1 ∧ specCpfSum11 (v.set p c) % 11 = 0)) := by
  have hp11 : p < v.length := by omega
  have hlen2 : (v.set p c).length = 11 := by rw [List.length_set, hlen]
  have hd2 : IsDigits (v.set p c) := isDigits_set v hd p c hc
  obtain ⟨-, h2, h3⟩ := (cpf_accepts_spec v hlen hd).mp hacc
  obtain ⟨-, k2, k3⟩ := (cpf_accepts_spec _ hlen2 hd2).mp hacc2
  have hy : digitAt (v.set p c) p = c - char0 := digitAt_set_self v p c hp11
  unfold specCpfDigit10 at h2 k2
  unfold specCpfDigit11 at h3 k3
  have u1 : specCpfSum10 (v.set p c) + (10 - p) * digitAt v p =
      specCpfSum10 v + (10 - p) * digitAt (v.set p c) p :=
    weighted_sum_set (fun i => 10 - i) 9 p hp v c
  have u2 : specCpfSum11 (v.set p c) + (11 - p) * digitAt v p =
      specCpfSum11 v + (11 - p) * digitAt (v.set p c) p :=
    weighted_sum_set (fun i => 11 - i) 10 p (by omega) v c
  rw [hy] at u1 u2
  rw [digitAt_set_ne v p c 9 (by omega)] at k2
  rw [digitAt_set_ne v p c 10 (by omega)] at k3
  exact ⟨u1, u2, cpf_digit_eq _ _ (h2.symm.trans k2), cpf_digit_eq _ _ (h3.symm.trans k3)⟩

/-- Detection at every position: in an accepted 11-digit string, replacing the digit at
position `p` by a different decimal digit `c` gives a string on which
`ValidateCpfOrCnpj` returns an error, unless `p = 0` and the two digits differ by exactly
one, or `p = 5` and they differ by exactly two or exactly nine. -/
theorem cpf_digit_mutation_rejected_sharp (v : GoString) (hlen : v.length = 11)
    (hd : IsDigits v) (hacc : ValidateCpfOrCnpj v = some none) (p : Nat) (hp : p ≤ 10)
    (c : Nat) (hc : char0 ≤ c ∧ c ≤ char9) (hne : c ≠ v.getD p 0)
    (h0 : p = 0 → v.getD 0 0 + 1 ≠ c ∧ c + 1 ≠ v.getD 0 0)
    (h5 : p = 5 → (v.getD 5 0 + 2 ≠ c ∧ c + 2 ≠ v.getD 5 0) ∧
      (v.getD 5 0 + 9 ≠ c ∧ c + 9 ≠ v.getD 5 0)) :
    ∃ e, ValidateCpfOrCnpj (v.set p c) = some (some e) := by
  by_cases hp0 : p = 0
  · subst hp0
    have hlen2 : (v.set 0 c).length = 11 := by rw [List.length_set, hlen]
    rcases cpf_result_cases _ hlen2 (isDigits_set v hd 0 c hc) with hacc2 | h
    swap
    · exact h
    exfalso
    obtain ⟨u1, -, e1, -⟩ := cpf_mutation_equations v hlen hd hacc 0 (by decide) c hc hacc2
    have hb := getD_digit v hd 0 (by omega)
    have hx : digitAt v 0 ≤ 9 := digitAt_le v hd 0 (by omega)
    have h := h0 rfl
    simp only [digitAt, char0, char9, Nat.sub_zero] at hb hc hx u1 e1 h hne
    exact mutation_core_first (v.getD 0 0 - 48) (c - 48) _ _ hx (by omega) (by omega)
      (by omega) u1 e1
  by_cases hp5 : p = 5
  · subst hp5
    have hlen2 : (v.set 5 c).length = 11 := by rw [List.length_set, hlen]
    rcases cpf_result_cases _ hlen2 (isDigits_set v hd 5 c hc) with hacc2 | h
    swap
    · exact h
    exfalso
    obtain ⟨u1, u2, e1, e2⟩ := cpf_mutation_equations v hlen hd hacc 5 (by decide) c hc hacc2
    have hb := getD_digit v hd 5 (by omega)
    have hx : digitAt v 5 ≤ 9 := digitAt_le v hd 5 (by omega)
    have h := h5 rfl
    simp only [digitAt, char0, char9, Nat.reduceSub] at hb hc hx u1 u2 e1 e2 h hne
    exact mutation_core_sixth (v.getD 5 0 - 48) (c - 48) _ _ _ _ hx (by omega) (by omega)
      (by omega) u1 u2 e1 e2
  · exact cpf_digit_mutation_rejected v hlen hd hacc p (by
      simp only [List.mem_cons, List.mem_singleton, List.not_mem_nil, or_false]
      omega) c hc hne

/-- Instances of the detection at "45091647007": at position 0 the digit 4 replaced by 7
is rejected, while 4 replaced by 5 (a change by one) is accepted. -/
theorem cpf_digit_mutation_rejected_sharp_instance :
    (∃ e, ValidateCpfOrCnpj ((bytes "45091647007").set 0 55) = some (some e)) ∧
      ValidateCpfOrCnpj ((bytes "45091647007").set 0 53) = some none :=
  ⟨cpf_digit_mutation_rejected_sharp (bytes "45091647007") (by decide) (by decide) (by decide)
      0 (by decide) 55 (by decide) (by decide) (fun _ => by decide) (fun h => by cases h),
    by decide⟩

/-- Acceptance of a 14-digit string in the specification's formulas. -/
theorem cnpj_accepts_spec (v : GoString) (hlen : v.length = 14) (hd : IsDigits v) :
    ValidateCpfOrCnpj v = some none ↔
      (¬ AllEqual v ∧ digitAt v 12 = specCnpjDigit13 v ∧ digitAt v 13 = specCnpjDigit14 v) := by
  rw [ValidateCpfOrCnpj_cnpj_digits v hlen hd]
  split_ifs with h1 h2 h3
  · simp [h1]
  · simp [h1, Ne.symm h2]
  · simp only [ne_eq, not_not] at h2
    simp [h1, h2, Ne.symm h3]
  · simp only [ne_eq, not_not] at h2 h3
    simp [h1, h2, h3]

theorem isDigits_fourteen (a0 a1 a2 a3 a4 a5 a6 a7 a8 a9 a10 a11 a12 a13 : Nat) :
    IsDigits [a0, a1, a2, a3, a4, a5, a6, a7, a8, a9, a10, a11, a12, a13] ↔
      ((48 ≤ a0 ∧ a0 ≤ 57) ∧ (48 ≤ a1 ∧ a1 ≤ 57) ∧ (48 ≤ a2 ∧ a2 ≤ 57) ∧ (48 ≤ a3 ∧ a3 ≤ 57) ∧
        (48 ≤ a4 ∧ a4 ≤ 57) ∧ (48 ≤ a5 ∧ a5 ≤ 57) ∧ (48 ≤ a6 ∧ a6 ≤ 57) ∧ (48 ≤ a7 ∧ a7 ≤ 57) ∧
        (48 ≤ a8 ∧ a8 ≤ 57) ∧ (48 ≤ a9 ∧ a9 ≤ 57) ∧ (48 ≤ a10 ∧ a10 ≤ 57) ∧
        (48 ≤ a11 ∧ a11 ≤ 57) ∧ (48 ≤ a12 ∧ a12 ≤ 57) ∧ (48 ≤ a13 ∧ a13 ≤ 57)) := by
  simp [IsDigits, char0, char9]

theorem specCnpjSum13_fourteen (a0 a1 a2 a3 a4 a5 a6 a7 a8 a9 a10 a11 a12 a13 : Nat) :
    specCnpjSum13 [a0, a1, a2, a3, a4, a5, a6, a7, a8, a9, a10, a11, a12, a13] =
      5 * (a0 - 48) + 4 * (a1 - 48) + 3 * (a2 - 48) + 2 * (a3 - 48) + 9 * (a4 - 48) +
        8 * (a5 - 48) + 7 * (a6 - 48) + 6 * (a7 - 48) + 5 * (a8 - 48) + 4 * (a9 - 48) +
        3 * (a10 - 48) + 2 * (a11 - 48) := by
  simp [specCnpjSum13, W1, digitAt, Finset.sum_range_succ, char0]

theorem specCnpjSum14_fourteen (a0 a1 a2 a3 a4 a5 a6 a7 a8 a9 a10 a11 a12 a13 : Nat) :
    specCnpjSum14 [a0, a1, a2, a3, a4, a5, a6, a7, a8, a9, a10, a11, a12, a13] =
      6 * (a0 - 48) + 5 * (a1 - 48) + 4 * (a2 - 48) + 3 * (a3 - 48) + 2 * (a4 - 48) +
        9 * (a5 - 48) + 8 * (a6 - 48) + 7 * (a7 - 48) + 6 * (a8 - 48) + 5 * (a9 - 48) +
        4 * (a10 - 48) + 3 * (a11 - 48) + 2 * (a12 - 48) := by
  simp [specCnpjSum14, W2, digitAt, Finset.sum_range_succ, char0]

/-- A string of fourteen digits, all equal to `k` except possibly the 13th, fails one of
the two CNPJ check-digit equations when the 13th differs from `k`. -/
theorem cnpj_repeat_core12 (k x : Nat) (hk : k ≤ 9) (hne : k ≠ x)
    (h2 : x = specCheck (5 * k + 4 * k + 3 * k + 2 * k + 9 * k + 8 * k + 7 * k + 6 * k +
      5 * k + 4 * k + 3 * k + 2 * k))
    (h3 : k = specCheck (6 * k + 5 * k + 4 * k + 3 * k + 2 * k + 9 * k + 8 * k + 7 * k +
      6 * k + 5 * k + 4 * k + 3 * k + 2 * x)) : False := by
  interval_cases k <;> simp [specCheck] at h2 <;> subst h2 <;> simp [specCheck] at h3 hne

/-- A string of fourteen digits, all equal to `k` except possibly the 14th, fails one of
the two CNPJ check-digit equations when the 14th differs from `k`. -/
theorem cnpj_repeat_core13 (k x : Nat) (hk : k ≤ 9) (hne : k ≠ x)
    (h2 : k = specCheck (5 * k + 4 * k + 3 * k + 2 * k + 9 * k + 8 * k + 7 * k + 6 * k +
      5 * k + 4 * k + 3 * k + 2 * k))
    (h3 : x = specCheck (6 * k + 5 * k + 4 * k + 3 * k + 2 * k + 9 * k + 8 * k + 7 * k +
      6 * k + 5 * k + 4 * k + 3 * k + 2 * k)) : False := by
  interval_cases k <;> simp [specCheck] at h2
  simp [specCheck] at h3
  omega

/-- A 14-digit string satisfying both CNPJ check-digit equations cannot be turned into
a repeated digit by changing its 13th digit. -/
theorem cnpj_set12_not_allEqual (v : GoString) (hlen : v.length = 14) (hd : IsDigits v)
    (h2 : digitAt v 12 = specCnpjDigit13 v) (h3 : digitAt v 13 = specCnpjDigit14 v)
    (c : Nat) (hne : c ≠ v.getD 12 0) : ¬ AllEqual (v.set 12 c) := by
  obtain ⟨a0, a1, a2, a3, a4, a5, a6, a7, a8, a9, a10, a11, a12, a13, rfl⟩ :=
    length_fourteen hlen
  unfold specCnpjDigit13 at h2
  unfold specCnpjDigit14 at h3
  rw [specCnpjSum13_fourteen] at h2
  rw [specCnpjSum14_fourteen] at h3
  rw [isDigits_fourteen] at hd
  simp only [digitAt, List.getD_cons_succ, List.getD_cons_zero, char0] at h2 h3 hne
  have e : [a0, a1, a2, a3, a4, a5, a6, a7, a8, a9, a10, a11, a12, a13].set 12 c =
      [a0, a1, a2, a3, a4, a5, a6, a7, a8, a9, a10, a11, c, a13] := rfl
  rw [e, allEqual_fourteen]
  rintro ⟨rfl, rfl, rfl, rfl, rfl, rfl, rfl, rfl, rfl, rfl, rfl, rfl, rfl⟩
  exact cnpj_repeat_core12 _ _ (by omega) (by omega) h2 h3

/-- A 14-digit string satisfying both CNPJ check-digit equations cannot be turned into
a repeated digit by changing its 14th digit. -/
theorem cnpj_set13_not_allEqual (v : GoString) (hlen : v.length = 14) (hd : IsDigits v)
    (h2 : digitAt v 12 = specCnpjDigit13 v) (h3 : digitAt v 13 = specCnpjDigit14 v)
    (c : Nat) (hne : c ≠ v.getD 13 0) : ¬ AllEqual (v.set 13 c) := by
  obtain ⟨a0, a1, a2, a3, a4, a5, a6, a7, a8, a9, a10, a11, a12, a13, rfl⟩ :=
    length_fourteen hlen
  unfold specCnpjDigit13 at h2
  unfold specCnpjDigit14 at h3
  rw [specCnpjSum13_fourteen] at h2
  rw [specCnpjSum14_fourteen] at h3
  rw [isDigits_fourteen] at hd
  simp only [digitAt, List.getD_cons_succ, List.getD_cons_zero, char0] at h2 h3 hne
  have e : [a0, a1, a2, a3, a4, a5, a6, a7, a8, a9, a10, a11, a12, a13].set 13 c =
      [a0, a1, a2, a3, a4, a5, a6, a7, a8, a9, a10, a11, a12, c] := rfl
  rw [e, allEqual_fourteen]
  rintro ⟨rfl, rfl, rfl, rfl, rfl, rfl, rfl, rfl, rfl, rfl, rfl, rfl, rfl⟩
  exact cnpj_repeat_core13 _ _ (by omega) (by omega) h2 h3

/-- C10: in an accepted 14-digit string, replacing the digit at position 12 by another
decimal digit gives a string rejected with the check-digit mismatch at position 13
(expected: the original digit), and replacing the digit at position 13 by another
decimal digit gives a string rejected with the mismatch at position 14. -/
theorem cnpj_check_digit_mutation (v : GoString) (hlen : v.length = 14) (hd : IsDigits v)
    (hacc : ValidateCpfOrCnpj v = some none) (c : Nat) (hc : char0 ≤ c ∧ c ≤ char9) :
    (c ≠ v.getD 12 0 →
      ValidateCpfOrCnpj (v.set 12 c) =
        some (some (Errorf "expected digit at position 13 to be %d, but got %d"
          [Arg.int (digitAt v 12), Arg.int (c - char0)]))) ∧
    (c ≠ v.getD 13 0 →
      ValidateCpfOrCnpj (v.set 13 c) =
        some (some (Errorf "expected digit at position 14 to be %d, but got %d"
          [Arg.int (digitAt v 13), Arg.int (c - char0)]))) := by
  obtain ⟨h1, h2, h3⟩ := (cnpj_accepts_spec v hlen hd).mp hacc
  have hlen12 : (v.set 12 c).length = 14 := by rw [List.length_set, hlen]
  have hlen13 : (v.set 13 c).length = 14 := by rw [List.length_set, hlen]
  have hd12 : IsDigits (v.set 12 c) := isDigits_set v hd 12 c hc
  have hd13 : IsDigits (v.set 13 c) := isDigits_set v hd 13 c hc
  have hb12 := getD_digit v hd 12 (by omega)
  have hb13 := getD_digit v hd 13 (by omega)
  have s12 : specCnpjSum13 (v.set 12 c) = specCnpjSum13 v :=
    weighted_sum_set_ge (fun i => W1.getD i 0) 12 12 (by decide) v c
  have s13 : specCnpjSum13 (v.set 13 c) = specCnpjSum13 v :=
    weighted_sum_set_ge (fun i => W1.getD i 0) 12 13 (by decide) v c
  have t13 : specCnpjSum14 (v.set 13 c) = specCnpjSum14 v :=
    weighted_sum_set_ge (fun i => W2.getD i 0) 13 13 (by decide) v c
  constructor
  · intro hne
    have hall : ¬ AllEqual (v.set 12 c) := cnpj_set12_not_allEqual v hlen hd h2 h3 c hne
    have hw : specCnpjDigit13 (v.set 12 c) = digitAt v 12 := by
      unfold specCnpjDigit13 at h2 ⊢
      rw [s12, ← h2]
    have hg : digitAt (v.set 12 c) 12 = c - char0 := digitAt_set_self v 12 c (by omega)
    have hm : digitAt v 12 ≠ c - char0 := by
      simp only [digitAt, char0, char9] at hb12 hc ⊢
      omega
    rw [ValidateCpfOrCnpj_cnpj_digits _ hlen12 hd12, if_neg hall, hw, hg, if_pos hm]
  · intro hne
    have hall : ¬ AllEqual (v.set 13 c) := cnpj_set13_not_allEqual v hlen hd h2 h3 c hne
    have hw1 : specCnpjDigit13 (v.set 13 c) = digitAt v 12 := by
      unfold specCnpjDigit13 at h2 ⊢
      rw [s13, ← h2]
    have hg1 : digitAt (v.set 13 c) 12 = digitAt v 12 := digitAt_set_ne v 13 c 12 (by decide)
    have hw : specCnpjDigit14 (v.set 13 c) = digitAt v 13 := by
      unfold specCnpjDigit14 at h3 ⊢
      rw [t13, ← h3]
    have hg : digitAt (v.set 13 c) 13 = c - char0 := digitAt_set_self v 13 c (by omega)
    have hm : digitAt v 13 ≠ c - char0 := by
      simp only [digitAt, char0, char9] at hb13 hc ⊢
      omega
    rw [ValidateCpfOrCnpj_cnpj_digits _ hlen13 hd13, if_neg hall, hw1, hg1,
      if_neg (by simp), hw, hg, if_pos hm]

/-- Witness of C10 at the CNPJ "11222333000181": the mutations "11222333000191"
(position 12) and "11222333000187" (position 13). -/
theorem cnpj_check_digit_mutation_witness :
    (bytes "11222333000181").length = 14 ∧ IsDigits (bytes "11222333000181") ∧
    ValidateCpfOrCnpj (bytes "11222333000181") = some none ∧
    (bytes "11222333000181").set 12 57 = bytes "11222333000191" ∧
    ValidateCpfOrCnpj ((bytes "11222333000181").set 12 57) =
      some (some (Errorf "expected digit at position 13 to be %d, but got %d"
        [Arg.int (digitAt (bytes "11222333000181") 12), Arg.int (57 - char0)])) ∧
    (bytes "11222333000181").set 13 55 = bytes "11222333000187" ∧
    ValidateCpfOrCnpj ((bytes "11222333000181").set 13 55) =
      some (some (Errorf "expected digit at position 14 to be %d, but got %d"
        [Arg.int (digitAt (bytes "11222333000181") 13), Arg.int (55 - char0)])) :=
  ⟨by decide, by decide, by decide, by decide,
    (cnpj_check_digit_mutation (bytes "11222333000181") (by decide) (by decide) (by decide) 57
      (by decide)).1 (by decide),
    by decide,
    (cnpj_check_digit_mutation (bytes "11222333000181") (by decide) (by decide) (by decide) 55
      (by decide)).2 (by decide)⟩

/-! ## Non-vacuity, non-digit input and the two reduction rules -/

/-- C11: the CNPJ branch is not vacuous: "11222333000181" is a string of 14 decimal
digits with both check digits correct on which `ValidateCpfOrCnpj` returns nil. -/
theorem cnpj_branch_not_vacuous :
    ∃ v : GoString, v.length = 14 ∧ IsDigits v ∧ digitAt v 12 = specCnpjDigit13 v ∧
      digitAt v 13 = specCnpjDigit14 v ∧ ValidateCpfOrCnpj v = some none :=
  ⟨bytes "11222333000181", by decide, by decide, by decide, by decide, by decide⟩

/-- C13: non-digit input is not rejected as such: "00000000:20" has length 11, its
byte at index 8 is ':' (58, not a decimal digit), the code reads that byte as the
value 10, and `ValidateCpfOrCnpj` returns nil on it. -/
theorem non_digit_accepted :
    (bytes "00000000:20").length = 11 ∧ IsBytes (bytes "00000000:20") ∧
      (bytes "00000000:20").getD 8 0 = 58 ∧ ¬ (char0 ≤ 58 ∧ 58 ≤ char9) ∧
      ¬ IsDigits (bytes "00000000:20") ∧
      byteDigit (bytes "00000000:20") 8 = (58 + 256 - char0) % 256 ∧
      byteDigit (bytes "00000000:20") 8 = 10 ∧
      ValidateCpfOrCnpj (bytes "00000000:20") = some none := by
  decide

/-- C14: the CPF reduction `((s * 10) mod 11) mod 10` and the CNPJ reduction
`0 if s mod 11 < 2 else 11 - (s mod 11)` are the same function of the weighted sum. -/
theorem cpf_cnpj_reduction_agree (s : Nat) :
    s * 10 % 11 % 10 = cnpjWant s ∧
      s * 10 % 11 % 10 = (if s % 11 < 2 then 0 else 11 - s % 11) := by
  have key : s * 10 % 11 % 10 = (if s % 11 < 2 then 0 else 11 - s % 11) := by
    have hs : s * 10 % 11 = (s % 11) * 10 % 11 := by omega
    have h1 : s % 11 < 11 := Nat.mod_lt _ (by decide)
    rw [hs]
    generalize s % 11 = m at h1
    interval_cases m <;> simp
  exact ⟨key, key⟩

/-! ## Digits at the check positions, and totality -/

theorem getD_lt_of_isBytes (v : GoString) (hb : IsBytes v) (i : Nat) (hi : i < v.length) :
    v.getD i 0 < 256 := by
  have e : v.getD i 0 = v[i] := by
    simp [List.getD_eq_getElem?_getD, List.getElem?_eq_getElem hi]
  rw [e]
  exact hb _ (List.getElem_mem hi)

/-- A byte whose difference with '0' (modulo 256) is below 10 is a decimal digit. -/
theorem digit_of_byteSub_lt (b : Nat) (hb : b < 256) (h : byteSub b char0 < 10) :
    char0 ≤ b ∧ b ≤ char9 := by
  unfold byteSub char0 at h
  unfold char0 char9
  omega

/-- A byte that is not a decimal digit is read as a value in `10..255`. -/
theorem byteSub_of_not_digit (b : Nat) (hb : b < 256) (h : ¬ (char0 ≤ b ∧ b ≤ char9)) :
    10 ≤ byteSub b char0 ∧ byteSub b char0 ≤ 255 := by
  unfold char0 char9 at h
  unfold byteSub char0
  omega

theorem cpfWant10_lt (v : GoString) : cpfWant10 v < 10 := Nat.mod_lt _ (by decide)

theorem cpfWant11_lt (v : GoString) : cpfWant11 v < 10 := Nat.mod_lt _ (by decide)

theorem cnpjWant_lt (s : Nat) : cnpjWant s < 10 := by
  unfold cnpjWant
  simp only
  split_ifs <;> omega

/-- C17: on a string of bytes on which `ValidateCpfOrCnpj` returns nil, the bytes at
the check-digit positions are ASCII decimal digits: indices 9 and 10 for length 11,
indices 12 and 13 for length 14. -/
theorem accepted_check_bytes_are_digits (v : GoString) (hb : IsBytes v)
    (hacc : ValidateCpfOrCnpj v = some none) :
    (v.length = 11 →
      (char0 ≤ v.getD 9 0 ∧ v.getD 9 0 ≤ char9) ∧ (char0 ≤ v.getD 10 0 ∧ v.getD 10 0 ≤ char9)) ∧
    (v.length = 14 →
      (char0 ≤ v.getD 12 0 ∧ v.getD 12 0 ≤ char9) ∧
        (char0 ≤ v.getD 13 0 ∧ v.getD 13 0 ≤ char9)) := by
  constructor
  · intro hlen
    rw [ValidateCpfOrCnpj_eleven v hlen, ValidateCpf_eq v hlen] at hacc
    split_ifs at hacc with h1 h2 h3
    · simp at hacc
    · simp at hacc
    · simp at hacc
    · simp only [ne_eq, not_not] at h2 h3
      refine ⟨digit_of_byteSub_lt _ (getD_lt_of_isBytes v hb 9 (by omega)) ?_,
        digit_of_byteSub_lt _ (getD_lt_of_isBytes v hb 10 (by omega)) ?_⟩
      · have := cpfWant10_lt v
        rw [h2] at this
        exact this
      · have := cpfWant11_lt v
        rw [h3] at this
        exact this
  · intro hlen
    rw [ValidateCpfOrCnpj_fourteen v hlen, ValidateCnpj_eq v hlen] at hacc
    split_ifs at hacc with h1 h2 h3
    · simp at hacc
    · simp at hacc
    · simp at hacc
    · simp only [ne_eq, not_not] at h2 h3
      refine ⟨digit_of_byteSub_lt _ (getD_lt_of_isBytes v hb 12 (by omega)) ?_,
        digit_of_byteSub_lt _ (getD_lt_of_isBytes v hb 13 (by omega)) ?_⟩
      · have := cnpjWant_lt (∑ i in Finset.range 12, byteDigit v i * multipliers1.getD i 0)
        unfold cnpjWant13 at h2
        rw [h2] at this
        exact this
      · have := cnpjWant_lt (∑ i in Finset.range 13, byteDigit v i * multipliers2.getD i 0)
        unfold cnpjWant14 at h3
        rw [h3] at this
        exact this

/-- Witness of C17 at the accepted string "00000000:20", which has a non-digit byte
outside the check-digit positions. -/
theorem accepted_check_bytes_are_digits_witness :
    IsBytes (bytes "00000000:20") ∧ ValidateCpfOrCnpj (bytes "00000000:20") = some none ∧
    ((bytes "00000000:20").length = 11 →
      (char0 ≤ (bytes "00000000:20").getD 9 0 ∧ (bytes "00000000:20").getD 9 0 ≤ char9) ∧
        (char0 ≤ (bytes "00000000:20").getD 10 0 ∧ (bytes "00000000:20").getD 10 0 ≤ char9)) :=
  ⟨by decide, by decide,
    (accepted_check_bytes_are_digits (bytes "00000000:20") (by decide) (by decide)).1⟩

/-- Called directly on a string shorter than 11 bytes, `ValidateCpf` reads out of
range; the length test of `ValidateCpfOrCnpj` is what excludes this. -/
theorem ValidateCpf_short_panics :
    ValidateCpf (bytes "0123456789") = none ∧ ValidateCnpj (bytes "66849734008") = none ∧
      ValidateCpf [] = none := by
  decide

theorem invalid_length_eq (v : GoString) (h11 : ¬ v.length = 11) (h14 : ¬ v.length = 14) :
    ValidateCpfOrCnpj v =
      some (some (Errorf "invalid CPF or CNPJ with length %d: %s"
        [Arg.int v.length, Arg.str v])) := by
  simp [ValidateCpfOrCnpj, h11, h14]

/-- C18: `ValidateCpfOrCnpj` is total: on every string, of any length and any bytes, no
index is read out of range, and the result is nil or an error. -/
theorem ValidateCpfOrCnpj_total (v : GoString) :
    ValidateCpfOrCnpj v ≠ none ∧
      (ValidateCpfOrCnpj v = some none ∨ ∃ e, ValidateCpfOrCnpj v = some (some e)) := by
  have key : ValidateCpfOrCnpj v = some none ∨ ∃ e, ValidateCpfOrCnpj v = some (some e) := by
    by_cases h11 : v.length = 11
    · rw [ValidateCpfOrCnpj_eleven v h11, ValidateCpf_eq v h11]
      split_ifs
      · exact Or.inr ⟨_, rfl⟩
      · exact Or.inr ⟨_, rfl⟩
      · exact Or.inr ⟨_, rfl⟩
      · exact Or.inl rfl
    · by_cases h14 : v.length = 14
      · rw [ValidateCpfOrCnpj_fourteen v h14, ValidateCnpj_eq v h14]
        split_ifs
        · exact Or.inr ⟨_, rfl⟩
        · exact Or.inr ⟨_, rfl⟩
        · exact Or.inr ⟨_, rfl⟩
        · exact Or.inl rfl
      · exact Or.inr ⟨_, (invalid_length_eq v h11 h14)⟩
  refine ⟨?_, key⟩
  rcases key with h | ⟨e, h⟩ <;> rw [h] <;> simp

/-! ## The check-digit part alone -/

/-- `ValidateCpf` is the repeated-digit check followed by `ValidateCpfChecks`. -/
theorem ValidateCpf_split (val : GoString) :
    ValidateCpf val =
      (distinctScan val (forRange 1 11)).bind fun hasDistinctDigits =>
        if !hasDistinctDigits then
          some (some (Errorf "Invalid CPF with no distinct digit: %s" [Arg.str val]))
        else ValidateCpfChecks val :=
  rfl

/-- `ValidateCnpj` is the repeated-digit check followed by `ValidateCnpjChecks`. -/
theorem ValidateCnpj_split (val : GoString) :
    ValidateCnpj val =
      (distinctScan val (forRange 1 14)).bind fun hasDistinctDigits =>
        if !hasDistinctDigits then
          some (some (Errorf "Invalid CNPJ with no distinct digit: %s" [Arg.str val]))
        else ValidateCnpjChecks val :=
  rfl

theorem ValidateCpf_of_not_allEqual (v : GoString) (hlen : v.length = 11)
    (h : ¬ AllEqual v) : ValidateCpf v = ValidateCpfChecks v := by
  rw [ValidateCpf_split, distinctScan_eleven v hlen]
  simp [h]

theorem ValidateCnpj_of_not_allEqual (v : GoString) (hlen : v.length = 14)
    (h : ¬ AllEqual v) : ValidateCnpj v = ValidateCnpjChecks v := by
  rw [ValidateCnpj_split, distinctScan_fourteen v hlen]
  simp [h]

/-- C12: for every decimal digit `c`, the string of eleven `c` satisfies both CPF
check-digit equations (its recomputed 10th and 11th digits equal `c`), it is accepted by
`ValidateCpf` with the repeated-digit check removed, and `ValidateCpf` itself rejects it
with the repeated-digit error. -/
theorem repeated_cpf_passes_checksum (c : Nat) (hc : char0 ≤ c ∧ c ≤ char9) :
    specCpfDigit10 (List.replicate 11 c) = c - char0 ∧
      specCpfDigit11 (List.replicate 11 c) = c - char0 ∧
      digitAt (List.replicate 11 c) 9 = c - char0 ∧
      digitAt (List.replicate 11 c) 10 = c - char0 ∧
      ValidateCpfChecks (List.replicate 11 c) = some none ∧
      ValidateCpf (List.replicate 11 c) =
        some (some (Errorf "Invalid CPF with no distinct digit: %s"
          [Arg.str (List.replicate 11 c)])) := by
  obtain ⟨hl, hu⟩ : 48 ≤ c ∧ c ≤ 57 := hc
  interval_cases c <;> decide

/-- Witness of C12 at the digit '0', the string "00000000000" of the specification. -/
theorem repeated_cpf_passes_checksum_witness :
    (char0 ≤ 48 ∧ 48 ≤ char9) ∧ List.replicate 11 48 = bytes "00000000000" ∧
      ValidateCpfChecks (List.replicate 11 48) = some none ∧
      ValidateCpf (List.replicate 11 48) =
        some (some (Errorf "Invalid CPF with no distinct digit: %s"
          [Arg.str (List.replicate 11 48)])) :=
  ⟨by decide, by decide,
    (repeated_cpf_passes_checksum 48 (by decide)).2.2.2.2.1,
    (repeated_cpf_passes_checksum 48 (by decide)).2.2.2.2.2⟩

/-- C16: among the strings of fourteen equal decimal digits, only the all-zero string
satisfies both CNPJ check-digit equations; for a digit `c` in `1..9` the recomputed 13th
digit differs from `c`, so `ValidateCnpj` without the repeated-digit check already
rejects it at position 13. `ValidateCnpj` itself rejects all ten with the repeated-digit
error, and on a string of length 14 that is not a repeated byte the check changes
nothing. -/
theorem repeated_cnpj_checksum (c : Nat) (hc : char0 ≤ c ∧ c ≤ char9) :
    (c = char0 →
      specCnpjDigit13 (List.replicate 14 c) = digitAt (List.replicate 14 c) 12 ∧
        specCnpjDigit14 (List.replicate 14 c) = digitAt (List.replicate 14 c) 13 ∧
        ValidateCnpjChecks (List.replicate 14 c) = some none) ∧
    (c ≠ char0 →
      specCnpjDigit13 (List.replicate 14 c) ≠ digitAt (List.replicate 14 c) 12 ∧
        ValidateCnpjChecks (List.replicate 14 c) =
          some (some (Errorf "expected digit at position 13 to be %d, but got %d"
            [Arg.int (specCnpjDigit13 (List.replicate 14 c)), Arg.int (c - char0)]))) ∧
    ValidateCnpj (List.replicate 14 c) =
      some (some (Errorf "Invalid CNPJ with no distinct digit: %s"
        [Arg.str (List.replicate 14 c)])) ∧
    (∀ v : GoString, v.length = 14 → ¬ AllEqual v → ValidateCnpj v = ValidateCnpjChecks v) := by
  obtain ⟨hl, hu⟩ : 48 ≤ c ∧ c ≤ 57 := hc
  refine ⟨?_, ?_, ?_, fun v hlen h => ValidateCnpj_of_not_allEqual v hlen h⟩
  · interval_cases c <;> decide
  · interval_cases c <;> decide
  · interval_cases c <;> decide

/-- Witness of C16 at the digits '0' and '5'. -/
theorem repeated_cnpj_checksum_witness :
    (char0 ≤ 48 ∧ 48 ≤ char9) ∧ (char0 ≤ 53 ∧ 53 ≤ char9) ∧
      List.replicate 14 48 = bytes "00000000000000" ∧
      ValidateCnpjChecks (List.replicate 14 48) = some none ∧
      ValidateCnpjChecks (List.replicate 14 53) =
        some (some (Errorf "expected digit at position 13 to be %d, but got %d"
          [Arg.int (specCnpjDigit13 (List.replicate 14 53)), Arg.int (53 - char0)])) :=
  ⟨by decide, by decide, by decide,
    ((repeated_cnpj_checksum 48 (by decide)).1 (by decide)).2.2,
    ((repeated_cnpj_checksum 53 (by decide)).2.1 (by decide)).2⟩

/-! ## Check digits as a function of the base number -/

theorem digitAt_append_left (p s : GoString) (i : Nat) (hi : i < p.length) :
    digitAt (p ++ s) i = digitAt p i := by
  simp [digitAt, List.getElem?_append_left hi]

theorem digitAt_append_right (p s : GoString) (i : Nat) (hi : p.length ≤ i) :
    digitAt (p ++ s) i = digitAt s (i - p.length) := by
  simp [digitAt, List.getElem?_append_right hi]

/-- The first CPF weighted sum only reads the nine base digits. -/
theorem specCpfSum10_append (p s : GoString) (hlen : p.length = 9) :
    specCpfSum10 (p ++ s) = specCpfSum10 p :=
  Finset.sum_congr rfl fun i hi => by
    rw [digitAt_append_left p s i (by have := Finset.mem_range.mp hi; omega)]

/-- The second CPF weighted sum only reads the nine base digits and the 10th digit. -/
theorem specCpfSum11_append (p s : GoString) (hlen : p.length = 9) :
    specCpfSum11 (p ++ s) = specCpfSum11 (p ++ [s.getD 0 0]) :=
  Finset.sum_congr rfl fun i hi => by
    have hi10 := Finset.mem_range.mp hi
    by_cases h9 : i < 9
    · rw [digitAt_append_left p s i (by omega), digitAt_append_left p _ i (by omega)]
    · have e : i = 9 := by omega
      subst e
      rw [digitAt_append_right p s 9 (by omega), digitAt_append_right p _ 9 (by omega), hlen]
      simp [digitAt]

theorem length_two {s : GoString} (h : s.length = 2) : ∃ x y, s = [x, y] := by
  match s, h with
  | [x, y], _ => exact ⟨x, y, rfl⟩

theorem length_nine {p : GoString} (h : p.length = 9) :
    ∃ a0 a1 a2 a3 a4 a5 a6 a7 a8, p = [a0, a1, a2, a3, a4, a5, a6, a7, a8] := by
  match p, h with
  | [a0, a1, a2, a3, a4, a5, a6, a7, a8], _ => exact ⟨_, _, _, _, _, _, _, _, _, rfl⟩

theorem isDigits_append (p s : GoString) (hp : IsDigits p) (hs : IsDigits s) :
    IsDigits (p ++ s) := by
  intro b hb
  rcases List.mem_append.mp hb with h | h
  · exact hp b h
  · exact hs b h

/-- Acceptance by `ValidateCpf` of nine base digits followed by two digits `x`, `y`. -/
theorem ValidateCpf_base_suffix (p : GoString) (hlen : p.length = 9) (hd : IsDigits p)
    (x y : Nat) (hs : IsDigits [x, y]) :
    ValidateCpf (p ++ [x, y]) = some none ↔
      (¬ AllEqual (p ++ [x, y]) ∧ x - char0 = specCpfDigit10 p ∧
        y - char0 = specCpfDigit11 (p ++ [x])) := by
  have hl : (p ++ [x, y]).length = 11 := by simp [hlen]
  have h := cpf_accepts_spec (p ++ [x, y]) hl (isDigits_append p _ hd hs)
  rw [ValidateCpfOrCnpj_eleven _ hl] at h
  rw [h]
  have e9 : digitAt (p ++ [x, y]) 9 = x - char0 := by
    rw [digitAt_append_right p _ 9 (by omega), hlen]; rfl
  have e10 : digitAt (p ++ [x, y]) 10 = y - char0 := by
    rw [digitAt_append_right p _ 10 (by omega), hlen]; rfl
  have s10 : specCpfDigit10 (p ++ [x, y]) = specCpfDigit10 p := by
    unfold specCpfDigit10; rw [specCpfSum10_append p _ hlen]
  have s11 : specCpfDigit11 (p ++ [x, y]) = specCpfDigit11 (p ++ [x]) := by
    unfold specCpfDigit11; rw [specCpfSum11_append p _ hlen]; rfl
  rw [e9, e10, s10, s11]

/-- Nine equal base digits `k` force both check digits to be `k`. -/
theorem repeated_base_digits (k x y : Nat) (hk : 48 ≤ k ∧ k ≤ 57) (hx : 48 ≤ x ∧ x ≤ 57)
    (hy : 48 ≤ y ∧ y ≤ 57)
    (h2 : x - char0 = specCpfDigit10 [k, k, k, k, k, k, k, k, k])
    (h3 : y - char0 = specCpfDigit11 ([k, k, k, k, k, k, k, k, k] ++ [x])) :
    x = k ∧ y = k := by
  obtain ⟨hl, hu⟩ := hk
  obtain ⟨hxl, hxu⟩ := hx
  obtain ⟨hyl, hyu⟩ := hy
  interval_cases k <;> interval_cases x <;> first
    | (exfalso; revert h2; decide)
    | (interval_cases y <;> first
        | (exfalso; revert h3; decide)
        | exact ⟨rfl, rfl⟩)

theorem isDigits_pair (x y : Nat) :
    IsDigits [x, y] ↔ ((48 ≤ x ∧ x ≤ 57) ∧ (48 ≤ y ∧ y ≤ 57)) := by
  simp [IsDigits, char0, char9]

theorem allEqual_of_append (p s : GoString) (h : AllEqual (p ++ s)) : AllEqual p :=
  fun x hx y hy => h x (List.mem_append.mpr (Or.inl hx)) y (List.mem_append.mpr (Or.inl hy))

/-- C15: for nine base digits `p` there is at most one pair of check digits `s` such
that `ValidateCpf` accepts `p` followed by `s`; there is one when the digits of `p` are
not all equal, and none when they are all equal. -/
theorem cpf_check_digits_determined (p : GoString) (hlen : p.length = 9) (hd : IsDigits p) :
    (∀ s t : GoString, s.length = 2 → IsDigits s → t.length = 2 → IsDigits t →
      ValidateCpf (p ++ s) = some none → ValidateCpf (p ++ t) = some none → s = t) ∧
    (¬ AllEqual p →
      ∃ s : GoString, s.length = 2 ∧ IsDigits s ∧ ValidateCpf (p ++ s) = some none) ∧
    (AllEqual p →
      ∀ s : GoString, s.length = 2 → IsDigits s → ValidateCpf (p ++ s) ≠ some none) := by
  refine ⟨?_, ?_, ?_⟩
  · intro s t hs hsd ht htd hsa hta
    obtain ⟨x, y, rfl⟩ := length_two hs
    obtain ⟨x', y', rfl⟩ := length_two ht
    obtain ⟨-, h2, h3⟩ := (ValidateCpf_base_suffix p hlen hd x y hsd).mp hsa
    obtain ⟨-, k2, k3⟩ := (ValidateCpf_base_suffix p hlen hd x' y' htd).mp hta
    rw [isDigits_pair] at hsd htd
    have hc : char0 = 48 := rfl
    have hx : x = x' := by
      have e := h2.trans k2.symm
      omega
    subst hx
    have hy : y = y' := by
      have e := h3.trans k3.symm
      omega
    rw [hy]
  · intro hne
    have h10 : specCpfDigit10 p < 10 := Nat.mod_lt _ (by decide)
    have h11 : specCpfDigit11 (p ++ [char0 + specCpfDigit10 p]) < 10 := Nat.mod_lt _ (by decide)
    have hsd : IsDigits [char0 + specCpfDigit10 p,
        char0 + specCpfDigit11 (p ++ [char0 + specCpfDigit10 p])] := by
      rw [isDigits_pair]
      have hc : char0 = 48 := rfl
      omega
    refine ⟨[char0 + specCpfDigit10 p,
      char0 + specCpfDigit11 (p ++ [char0 + specCpfDigit10 p])], rfl, hsd, ?_⟩
    rw [ValidateCpf_base_suffix p hlen hd _ _ hsd]
    exact ⟨fun h => hne (allEqual_of_append p _ h), Nat.add_sub_cancel_left _ _,
      Nat.add_sub_cancel_left _ _⟩
  · intro hall s hs hsd hacc
    obtain ⟨x, y, rfl⟩ := length_two hs
    obtain ⟨h1, h2, h3⟩ := (ValidateCpf_base_suffix p hlen hd x y hsd).mp hacc
    obtain ⟨a0, a1, a2, a3, a4, a5, a6, a7, a8, rfl⟩ := length_nine hlen
    have e1 : a0 = a1 := hall a0 (by simp) a1 (by simp)
    have e2 : a0 = a2 := hall a0 (by simp) a2 (by simp)
    have e3 : a0 = a3 := hall a0 (by simp) a3 (by simp)
    have e4 : a0 = a4 := hall a0 (by simp) a4 (by simp)
    have e5 : a0 = a5 := hall a0 (by simp) a5 (by simp)
    have e6 : a0 = a6 := hall a0 (by simp) a6 (by simp)
    have e7 : a0 = a7 := hall a0 (by simp) a7 (by simp)
    have e8 : a0 = a8 := hall a0 (by simp) a8 (by simp)
    subst e1 e2 e3 e4 e5 e6 e7 e8
    have hk : 48 ≤ a0 ∧ a0 ≤ 57 := hd a0 (by simp)
    rw [isDigits_pair] at hsd
    obtain ⟨rfl, rfl⟩ := repeated_base_digits a0 x y hk hsd.1 hsd.2 h2 h3
    exact h1 (allEqual_replicate 11 _)

/-- Witness of C15 at the base digits "668497340": its check digits "08" exist, and
any accepted pair of check digits equals them. -/
theorem cpf_check_digits_determined_witness :
    (bytes "668497340").length = 9 ∧ IsDigits (bytes "668497340") ∧
    ¬ AllEqual (bytes "668497340") ∧
    ValidateCpf (bytes "668497340" ++ bytes "08") = some none ∧
    (∀ t : GoString, t.length = 2 → IsDigits t →
      ValidateCpf (bytes "668497340" ++ t) = some none → bytes "08" = t) ∧
    (∃ s : GoString, s.length = 2 ∧ IsDigits s ∧
      ValidateCpf (bytes "668497340" ++ s) = some none) :=
  ⟨by decide, by decide, by decide, by decide,
    fun t ht htd hacc =>
      (cpf_check_digits_determined (bytes "668497340") (by decide) (by decide)).1
        (bytes "08") t (by decide) (by decide) ht htd (by decide) hacc,
    (cpf_check_digits_determined (bytes "668497340") (by decide) (by decide)).2.1
      (by decide)⟩

end Util
